import Mathlib

/-!
Verification development for the stage-driven conversation orchestrator
of the wa-agent-api repository.  The definitions below are a shallow
embedding of `app/workflows/lead_workflow.py` (class
`LeadConversionWorkflow`) together with the data model of
`app/models/lead_models_backup.py` (`ConversationStage`,
`ConversationContext`).  Python runtime values that flow through the
orchestrator (JSON payloads, section dictionaries, pydantic attributes)
are embedded as the inductive type `Value`; Python floats are embedded
as exact rationals (no claim below depends on floating-point rounding),
and timestamps are omitted (no claim mentions them).
-/

namespace WaAgent

mutual
/-- Embedding of the Python/JSON runtime values handled by the workflow:
`None`, booleans, ints, floats (as rationals), strings, lists and
string-keyed dicts.  Lists and dicts are mutual inductives so that the
traversals below are structural (and therefore computable and
kernel-reducible). -/
inductive Value where
  | null
  | bool (b : Bool)
  | int (n : Int)
  | float (q : Rat)
  | str (s : String)
  | list (xs : VList)
  | dict (xs : VDict)
deriving DecidableEq

/-- The elements of an embedded Python list. -/
inductive VList where
  | nil
  | cons (head : Value) (tail : VList)
deriving DecidableEq

/-- The entries of an embedded Python dict (ordered as inserted). -/
inductive VDict where
  | nil
  | cons (key : String) (val : Value) (tail : VDict)
deriving DecidableEq
end

/-- Length of an embedded list. -/
def VList.length : VList → Nat
  | .nil => 0
  | .cons _ tl => tl.length + 1

/-- Emptiness of an embedded list. -/
def VList.isEmpty : VList → Bool
  | .nil => true
  | .cons _ _ => false

/-- Build an embedded list from a Lean list. -/
def VList.ofList : List Value → VList
  | [] => .nil
  | v :: rest => .cons v (VList.ofList rest)

/-- Number of entries of an embedded dict. -/
def VDict.length : VDict → Nat
  | .nil => 0
  | .cons _ _ tl => tl.length + 1

/-- Emptiness of an embedded dict. -/
def VDict.isEmpty : VDict → Bool
  | .nil => true
  | .cons _ _ _ => false

/-- Lookup in an embedded dict (first match wins; keys are unique in
every dict Python builds). -/
def VDict.find? : VDict → String → Option Value
  | .nil, _ => none
  | .cons k v tl, key => if k == key then some v else tl.find? key

/-- `d[key] = v` on an embedded dict: replace in place, else append. -/
def VDict.set : VDict → String → Value → VDict
  | .nil, key, v => .cons key v .nil
  | .cons k w tl, key, v =>
    if k == key then .cons k v tl else .cons k w (tl.set key v)

/-- Python truthiness (`bool(x)`) of an embedded value. -/
def Value.truthy : Value → Bool
  | .null => false
  | .bool b => b
  | .int n => n != 0
  | .float q => q != 0
  | .str s => s != ""
  | .list xs => !xs.isEmpty
  | .dict xs => !xs.isEmpty

/-- `x is None` (identity with the `None` object). -/
def Value.isNull : Value → Bool
  | .null => true
  | _ => false

/-- Numeric view used by Python `==` and `>=` across `bool`/`int`/`float`. -/
def Value.toNum? : Value → Option Rat
  | .bool b => some (if b then 1 else 0)
  | .int n => some (n : Rat)
  | .float q => some q
  | _ => none

/-- Association-list lookup for section dicts (first match wins). -/
def dictFind? : List (String × Value) → String → Option Value
  | [], _ => none
  | (k, v) :: rest, key => if k == key then some v else dictFind? rest key

mutual
/-- Python `==` on embedded values: numbers compare across
`bool`/`int`/`float`, strings and `None` compare structurally, lists
elementwise, dicts by key lookup; values of unrelated types are unequal. -/
def pyEq (a b : Value) : Bool :=
  match a, b with
  | .null, .null => true
  | .str x, .str y => x == y
  | .list x, .list y => pyEqList x y
  | .dict x, .dict y => x.length == y.length && pyEqDictSub x y
  | x, y =>
    match x.toNum?, y.toNum? with
    | some p, some q => p == q
    | _, _ => false

/-- Elementwise Python `==` on lists. -/
def pyEqList (x y : VList) : Bool :=
  match x, y with
  | .nil, .nil => true
  | .cons a as, .cons b bs => pyEq a b && pyEqList as bs
  | _, _ => false

/-- Every key of `x` is present in `y` with a Python-equal value. -/
def pyEqDictSub (x y : VDict) : Bool :=
  match x with
  | .nil => true
  | .cons k v rest =>
    (match y.find? k with
     | some w => pyEq v w
     | none => false) && pyEqDictSub rest y
end

/-- Embedded Python dict (string keys, ordered as inserted). -/
abbrev PyDict := List (String × Value)

/-- `d.get(key)` with default `None`. -/
def dictGet (d : PyDict) (key : String) : Value :=
  (dictFind? d key).getD .null

/-- `d[key] = v`: replace in place if the key exists, else append. -/
def dictSet : PyDict → String → Value → PyDict
  | [], key, v => [(key, v)]
  | (k, w) :: rest, key, v =>
    if k == key then (k, v) :: rest else (k, w) :: dictSet rest key v

/-- Characters treated as whitespace by Python `str.strip()`. -/
def pyIsSpace (c : Char) : Bool :=
  c == ' ' || c == '\t' || c == '\n' || c == '\r' || c == '\x0b' || c == '\x0c'

/-- Python `str.strip()`. -/
def pyStrip (s : String) : String :=
  String.mk (((s.toList.dropWhile pyIsSpace).reverse.dropWhile pyIsSpace).reverse)

/-- Python `str.lower()`, modelled characterwise. -/
def pyLower (s : String) : String :=
  String.mk (s.toList.map Char.toLower)

/-- Keep only the characters satisfying `p` (models `re.sub` with a
negated character class). -/
def keepChars (p : Char → Bool) (s : String) : String :=
  String.mk (s.toList.filter p)

/-- ASCII decimal digit. -/
def isDigitChar (c : Char) : Bool := '0' ≤ c && c ≤ '9'

/-- Character class `[a-z ]` (used by the categorical normalizers). -/
def isAzOrSpace (c : Char) : Bool := ('a' ≤ c && c ≤ 'z') || c == ' '

/-- Character class `[a-z0-9 ]` (used by the interest-type normalizer). -/
def isAz09OrSpace (c : Char) : Bool := isAzOrSpace c || isDigitChar c

/-- Index of the first occurrence of `pat` in `s` (fuel-driven scan; the
fuel strictly exceeds the length of `s` in every use). -/
def findSub : Nat → List Char → List Char → Option Nat
  | 0, _, _ => none
  | fuel + 1, s, pat =>
    if pat.isPrefixOf s then some 0
    else
      match s with
      | [] => none
      | _ :: rest => (findSub fuel rest pat).map (· + 1)

/-- Python `needle in hay` on strings (`needle` nonempty in every use). -/
def containsSub (hay needle : String) : Bool :=
  (findSub (hay.length + 1) hay.toList needle.toList).isSome

/-- Python `s.split(marker, 1)`: the part before the first occurrence and
the rest, or `none` when the marker does not occur. -/
def splitOnce (s marker : String) : Option (String × String) :=
  match findSub (s.length + 1) s.toList marker.toList with
  | some i =>
    some (String.mk (s.toList.take i), String.mk (s.toList.drop (i + marker.length)))
  | none => none

/-- Replacement kernel for Python `str.replace` (all non-overlapping
occurrences, left to right); each step consumes at least one character,
so a fuel of the string length suffices. -/
def replaceAux : Nat → List Char → List Char → List Char → List Char
  | 0, s, _, _ => s
  | fuel + 1, s, pat, sub =>
    match s with
    | [] => []
    | c :: rest =>
      if pat.isPrefixOf s then sub ++ replaceAux fuel (s.drop pat.length) pat sub
      else c :: replaceAux fuel rest pat sub

/-- Python `s.replace(pat, sub)` (the patterns in the source are never
empty, and an empty pattern is returned unchanged here). -/
def pyReplace (s pat sub : String) : String :=
  if pat == "" then s
  else String.mk (replaceAux s.length s.toList pat.toList sub.toList)

/-- Decimal digits of the fractional part `r/d` (up to `fuel` digits,
stopping when the remainder vanishes). -/
def fracDigits : Nat → Nat → Nat → List Char
  | 0, _, _ => []
  | _, 0, _ => []
  | fuel + 1, r, d =>
    let r10 := r * 10
    Char.ofNat (48 + r10 / d) :: fracDigits fuel (r10 % d) d

/-- Best-effort decimal rendering of an embedded float, standing in for
Python `str(float)`; exact for terminating decimals, which covers every
value the workflow produces. -/
def pyStrFloat (q : Rat) : String :=
  let sign := if q < 0 then "-" else ""
  let n := q.num.natAbs
  let d := q.den
  let frac := fracDigits 30 (n % d) d
  sign ++ toString (n / d) ++ "." ++ (if frac.isEmpty then "0" else String.mk frac)

/-- Separator-joined concatenation (structural stand-in for
`String.intercalate`, which does not reduce in the kernel). -/
def joinSep (sep : String) : List String → String
  | [] => ""
  | [x] => x
  | x :: rest => x ++ sep ++ joinSep sep rest

mutual
/-- Python `repr(value)` (strings quoted), used when rendering
containers. -/
def pyRepr : Value → String
  | .null => "None"
  | .bool b => if b then "True" else "False"
  | .int n => toString n
  | .float q => pyStrFloat q
  | .str s => "'" ++ s ++ "'"
  | .list xs => "[" ++ pyReprListStr xs ++ "]"
  | .dict xs => "\x7b" ++ pyReprDictStr xs ++ "\x7d"

/-- Comma-joined renderings of the elements of a list. -/
def pyReprListStr : VList → String
  | .nil => ""
  | .cons v .nil => pyRepr v
  | .cons v rest => pyRepr v ++ ", " ++ pyReprListStr rest

/-- Comma-joined renderings of the entries of a dict. -/
def pyReprDictStr : VDict → String
  | .nil => ""
  | .cons k v .nil => "'" ++ k ++ "': " ++ pyRepr v
  | .cons k v rest => "'" ++ k ++ "': " ++ pyRepr v ++ ", " ++ pyReprDictStr rest
end

/-- Python `str(value)`: like `repr` except that a top-level string is
returned as-is. -/
def pyStr : Value → String
  | .str s => s
  | v => pyRepr v

/-- Parse of a list of ASCII digit characters. -/
def digitsToNat : List Char → Nat
  | [] => 0
  | c :: rest => digitsToNat rest + c.toNat.sub 48 * 10 ^ rest.length

/-- Python `int(string)`: optional sign around a nonempty digit string,
surrounding whitespace allowed (digit-group underscores are not used by
the workflow and are not modelled). -/
def pyIntParse (s : String) : Option Int :=
  let t := (pyStrip s).toList
  let (sign, digits) :=
    match t with
    | '-' :: rest => ((-1 : Int), rest)
    | '+' :: rest => ((1 : Int), rest)
    | rest => ((1 : Int), rest)
  if digits.isEmpty || !digits.all isDigitChar then none
  else some (sign * (digitsToNat digits : Int))

/-- Python `float(string)`: optional sign, digits with an optional
decimal point (at least one digit overall) and an optional exponent;
`inf`/`nan` spellings are not modelled (no claim involves them). -/
def pyFloatParse (s : String) : Option Rat :=
  let t := (pyStrip s).toList
  let (sign, rest) :=
    match t with
    | '-' :: r => ((-1 : Rat), r)
    | '+' :: r => ((1 : Rat), r)
    | r => ((1 : Rat), r)
  let intPart := rest.takeWhile isDigitChar
  let rest2 := rest.drop intPart.length
  let (fracPart, rest3) :=
    match rest2 with
    | '.' :: r => (r.takeWhile isDigitChar, (r.drop ((r.takeWhile isDigitChar).length)))
    | r => ([], r)
  if intPart.isEmpty && fracPart.isEmpty then none
  else
    let mantissa : Rat :=
      (digitsToNat intPart : Rat) +
        (digitsToNat fracPart : Rat) / ((10 : Rat) ^ fracPart.length)
    match rest3 with
    | [] => some (sign * mantissa)
    | e :: r =>
      if e == 'e' || e == 'E' then
        let (esign, edigits) :=
          match r with
          | '-' :: r2 => ((-1 : Int), r2)
          | '+' :: r2 => ((1 : Int), r2)
          | r2 => ((1 : Int), r2)
        if edigits.isEmpty || !edigits.all isDigitChar then none
        else
          let ex : Int := esign * (digitsToNat edigits : Int)
          some (sign * mantissa * (10 : Rat) ^ ex)
      else none

/-! ## Data model (`app/models/lead_models_backup.py`) -/

/-- `ConversationStage`: the closed stage enum of the onboarding journey. -/
inductive ConversationStage where
  | inicial
  | confirmacao_inicial
  | qualificacao
  | proposta
  | contratacao
  | coleta_documentos_pessoais
  | definicao_empresa
  | escolha_cnae
  | endereco_comercial
  | revisao_final
  | processamento
  | concluido
  | pausado
  | abandonado
deriving DecidableEq, Repr

/-- The string value of each stage token (the Python enum values). -/
def ConversationStage.value : ConversationStage → String
  | .inicial => "inicial"
  | .confirmacao_inicial => "confirmacao_inicial"
  | .qualificacao => "qualificacao"
  | .proposta => "proposta"
  | .contratacao => "contratacao"
  | .coleta_documentos_pessoais => "coleta_documentos_pessoais"
  | .definicao_empresa => "definicao_empresa"
  | .escolha_cnae => "escolha_cnae"
  | .endereco_comercial => "endereco_comercial"
  | .revisao_final => "revisao_final"
  | .processamento => "processamento"
  | .concluido => "concluido"
  | .pausado => "pausado"
  | .abandonado => "abandonado"

/-- `ConversationStage(token)`: the enum constructor lookup, `none` when
the token is not one of the enum values (Python raises `ValueError`). -/
def ConversationStage.fromString? : String → Option ConversationStage
  | "inicial" => some .inicial
  | "confirmacao_inicial" => some .confirmacao_inicial
  | "qualificacao" => some .qualificacao
  | "proposta" => some .proposta
  | "contratacao" => some .contratacao
  | "coleta_documentos_pessoais" => some .coleta_documentos_pessoais
  | "definicao_empresa" => some .definicao_empresa
  | "escolha_cnae" => some .escolha_cnae
  | "endereco_comercial" => some .endereco_comercial
  | "revisao_final" => some .revisao_final
  | "processamento" => some .processamento
  | "concluido" => some .concluido
  | "pausado" => some .pausado
  | "abandonado" => some .abandonado
  | _ => none

/-- `PRIMARY_STAGE_SEQUENCE`: ordered flow of the primary stages
(excludes the side states `pausado`/`abandonado`). -/
def PRIMARY_STAGE_SEQUENCE : List ConversationStage :=
  [.inicial, .confirmacao_inicial, .qualificacao, .proposta, .contratacao,
   .coleta_documentos_pessoais, .definicao_empresa, .escolha_cnae,
   .endereco_comercial, .revisao_final, .processamento, .concluido]

/-- `list.index(x)` as an option (Python raises `ValueError` on a miss). -/
def stageIndex? : List ConversationStage → ConversationStage → Option Nat
  | [], _ => none
  | s :: rest, t => if s = t then some 0 else (stageIndex? rest t).map (· + 1)

/-- Membership of a stage in a stage list (`x in list`). -/
def stageMem (l : List ConversationStage) (s : ConversationStage) : Bool :=
  (stageIndex? l s).isSome

/-- `LeadData`: the pydantic lead model; attributes hold whatever value
was assigned (assignment is not re-validated at runtime), embedded as
`Value` with default `None`. -/
structure LeadData where
  nome_completo : Value := .null
  email : Value := .null
  telefone : Value := .null
  empresa : Value := .null
  cargo : Value := .null
  renda_mensal : Value := .null
  tem_empresa : Value := .null
  precisa_contabilidade : Value := .null
  tipo_interesse : Value := .null
  cpf : Value := .null
  data_nascimento : Value := .null

/-- `getattr(lead_data, attribute, None)` for the attributes the field
registry targets. -/
def LeadData.getAttr (l : LeadData) : String → Value
  | "nome_completo" => l.nome_completo
  | "email" => l.email
  | "telefone" => l.telefone
  | "tipo_interesse" => l.tipo_interesse
  | "cpf" => l.cpf
  | "data_nascimento" => l.data_nascimento
  | "renda_mensal" => l.renda_mensal
  | "empresa" => l.empresa
  | "cargo" => l.cargo
  | "tem_empresa" => l.tem_empresa
  | "precisa_contabilidade" => l.precisa_contabilidade
  | _ => .null

/-- `setattr(lead_data, attribute, value)` for the registry attributes. -/
def LeadData.setAttr (l : LeadData) : String → Value → LeadData
  | "nome_completo", v => { l with nome_completo := v }
  | "email", v => { l with email := v }
  | "telefone", v => { l with telefone := v }
  | "tipo_interesse", v => { l with tipo_interesse := v }
  | "cpf", v => { l with cpf := v }
  | "data_nascimento", v => { l with data_nascimento := v }
  | "renda_mensal", v => { l with renda_mensal := v }
  | "empresa", v => { l with empresa := v }
  | "cargo", v => { l with cargo := v }
  | "tem_empresa", v => { l with tem_empresa := v }
  | "precisa_contabilidade", v => { l with precisa_contabilidade := v }
  | _, _ => l

/-- One history entry (`{"role": ..., "content": ..., "timestamp": ...}`);
the timestamp is real time and is omitted from the embedding (no claim
mentions it). -/
structure Message where
  role : String
  content : String

/-- `ConversationContext`: the aggregate session record.  Timestamps and
`validation_attempts` are omitted (no claim mentions them). -/
structure ConversationContext where
  stage : ConversationStage := .inicial
  lead_data : LeadData := {}
  initial_confirmation : PyDict := []
  business_profile : PyDict := []
  proposal_status : PyDict := []
  contract_data : PyDict := []
  document_status : PyDict := []
  company_profile : PyDict := []
  review_status : PyDict := []
  process_status : PyDict := []
  conversation_turns : Nat := 0
  messages_exchanged : List Message := []
  is_qualified : Bool := false
  qualification_reason : Value := .null
  fields_collected : List String := []

/-- `getattr(context, section)` for the dict-valued sections. -/
def getSectionDict (ctx : ConversationContext) : String → PyDict
  | "initial_confirmation" => ctx.initial_confirmation
  | "business_profile" => ctx.business_profile
  | "proposal_status" => ctx.proposal_status
  | "contract_data" => ctx.contract_data
  | "document_status" => ctx.document_status
  | "company_profile" => ctx.company_profile
  | "review_status" => ctx.review_status
  | "process_status" => ctx.process_status
  | _ => []

/-- Write back a dict-valued section by name. -/
def setSectionDict (ctx : ConversationContext) : String → PyDict → ConversationContext
  | "initial_confirmation", d => { ctx with initial_confirmation := d }
  | "business_profile", d => { ctx with business_profile := d }
  | "proposal_status", d => { ctx with proposal_status := d }
  | "contract_data", d => { ctx with contract_data := d }
  | "document_status", d => { ctx with document_status := d }
  | "company_profile", d => { ctx with company_profile := d }
  | "review_status", d => { ctx with review_status := d }
  | "process_status", d => { ctx with process_status := d }
  | _, _ => ctx

/-! ## Stage rules and stage determinizer
(`lead_workflow.py`: `_get_missing_fields`, `_determine_primary_stage`) -/

/-- `x is True`: identity with the `True` object. -/
def Value.isTrueConst : Value → Bool
  | .bool true => true
  | _ => false

/-- Python `a or b` on values (the truthy one, else the second). -/
def pyOr (a b : Value) : Value := if a.truthy then a else b

/-- `_get_missing_fields(stage, context)`: the per-stage list of
human-readable gap descriptors, in source order. -/
def get_missing_fields (stage : ConversationStage) (ctx : ConversationContext) : List String :=
  let lead := ctx.lead_data
  let business := ctx.business_profile
  let proposal := ctx.proposal_status
  let contract := ctx.contract_data
  let documents := ctx.document_status
  let company := ctx.company_profile
  let review := ctx.review_status
  let process := ctx.process_status
  match stage with
  | .inicial =>
    let has_basic_info :=
      lead.nome_completo.truthy || lead.tipo_interesse.truthy ||
        (dictGet business "tipo_negocio").truthy ||
        (dictGet business "estrutura_societaria").truthy
    if !has_basic_info then ["informações básicas sobre suas necessidades"] else []
  | .confirmacao_inicial =>
    if !(dictGet ctx.initial_confirmation "confirmado").truthy then
      ["confirmação dos dados extraídos"]
    else []
  | .qualificacao =>
    let estrutura := dictGet business "estrutura_societaria"
    (if !(dictGet business "tipo_negocio").truthy then ["tipo de negócio"] else []) ++
    (if !estrutura.truthy then ["estrutura societária"] else []) ++
    (if pyEq estrutura (.str "mei") && (dictGet business "faturamento_mei_ok").isNull then
       ["confirmação de faturamento MEI"] else []) ++
    (if pyEq estrutura (.str "socios") && !(dictGet business "numero_socios").truthy then
       ["número de sócios"] else [])
  | .proposta =>
    if !(dictGet proposal "aceite_proposta").isTrueConst then ["aceite da proposta"] else []
  | .contratacao =>
    let nome_completo := pyOr (dictGet contract "nome_completo") lead.nome_completo
    let cpf := pyOr (dictGet contract "cpf") lead.cpf
    let email := pyOr (dictGet contract "email") lead.email
    let telefone := pyOr (dictGet contract "telefone") lead.telefone
    let data_nascimento := pyOr (dictGet contract "data_nascimento") lead.data_nascimento
    (if !nome_completo.truthy then ["nome completo para contrato"] else []) ++
    (if !cpf.truthy then ["CPF"] else []) ++
    (if !email.truthy then ["email para contrato"] else []) ++
    (if !telefone.truthy then ["telefone para contrato"] else []) ++
    (if !data_nascimento.truthy then ["data de nascimento"] else []) ++
    (if !(dictGet contract "metodo_assinatura").truthy then ["método de assinatura"] else []) ++
    (if !(dictGet contract "contrato_assinado").isTrueConst then ["confirmação de assinatura"] else [])
  | .coleta_documentos_pessoais =>
    (if !(dictGet documents "rg_frente").truthy then ["foto frente RG/CNH"] else []) ++
    (if !(dictGet documents "rg_verso").truthy then ["foto verso RG/CNH"] else []) ++
    (if !(dictGet documents "comprovante_residencia").truthy then ["comprovante de residência"] else [])
  | .definicao_empresa =>
    let numero_socios := pyOr (dictGet business "numero_socios") (.int 0)
    (if !(dictGet company "nome_fantasia").truthy then ["nome fantasia"] else []) ++
    (if !(dictGet company "razao_social").truthy then ["razão social"] else []) ++
    (if (dictGet company "capital_social").isNull then ["capital social"] else []) ++
    (if numero_socios.truthy && !(dictGet company "participacoes_definidas").truthy then
       ["divisão das participações"] else [])
  | .escolha_cnae =>
    (if !(dictGet company "cnae_principal").truthy then ["CNAE principal"] else []) ++
    (if !(dictGet company "cnaes_confirmados").isTrueConst then ["confirmação de CNAEs"] else [])
  | .endereco_comercial =>
    let endereco_tipo := dictGet company "endereco_tipo"
    if !endereco_tipo.truthy then ["escolha do tipo de endereço"]
    else if pyEq endereco_tipo (.str "virtual") then
      (if !(dictGet company "cidade_escritorio_virtual").truthy then
         ["cidade do escritório virtual"] else []) ++
      (if !(dictGet company "aceite_escritorio_virtual").isTrueConst then
         ["aceite do escritório virtual"] else [])
    else
      (if !(dictGet company "cep").truthy then ["CEP"] else []) ++
      (if !(dictGet company "numero").truthy then ["número do endereço"] else []) ++
      (if !(dictGet company "endereco_confirmado").isTrueConst then
         ["confirmação do endereço"] else [])
  | .revisao_final =>
    if !(dictGet review "confirmado").isTrueConst then ["confirmação final"] else []
  | .processamento =>
    if !(dictGet process "finalizado").isTrueConst then ["finalização do processamento"] else []
  | _ => []

/-- The body of the stage walk in `_determine_primary_stage`: the
`CONCLUIDO` entry is skipped unless the process is finalized, any other
stage is returned as soon as its missing-fields list is nonempty, and
the fall-through after the loop picks `CONCLUIDO` or `PROCESSAMENTO`
according to the finalization flag. -/
def determineWalk (ctx : ConversationContext) : List ConversationStage → ConversationStage
  | [] =>
    if (dictGet ctx.process_status "finalizado").truthy then .concluido else .processamento
  | stage :: rest =>
    if stage = .concluido then
      if (dictGet ctx.process_status "finalizado").truthy then .concluido
      else determineWalk ctx rest
    else
      if (get_missing_fields stage ctx).isEmpty then determineWalk ctx rest
      else stage

/-- `_determine_primary_stage(context)`: keeps the special states
(`pausado`, `abandonado`, and also `concluido`), short-circuits to
`abandonado` when `process_status["status"] == "abandonado"`, and
otherwise walks the primary-stage sequence. -/
def determine_primary_stage (ctx : ConversationContext) : ConversationStage :=
  if ctx.stage = .pausado ∨ ctx.stage = .abandonado ∨ ctx.stage = .concluido then ctx.stage
  else if pyEq (dictGet ctx.process_status "status") (.str "abandonado") then .abandonado
  else determineWalk ctx PRIMARY_STAGE_SEQUENCE

/-- Canonical stage as worded by the specification: the first primary
stage whose missing-fields predicate is nonempty, else the final
completed stage.  (Spec-side definition, used to compare the code
against the claim.) -/
def specCanonicalStage (ctx : ConversationContext) : ConversationStage :=
  (PRIMARY_STAGE_SEQUENCE.find? (fun s => !(get_missing_fields s ctx).isEmpty)).getD .concluido

/-- `_apply_stage_transition(context, previous_stage, suggested_stage)`:
returns the stage the function stores into `context.stage` (the
`previous_stage` argument is only logged by the source). -/
def apply_stage_transition (ctx : ConversationContext)
    (suggested : Option ConversationStage) : ConversationStage :=
  let computed := determine_primary_stage ctx
  match suggested with
  | none => computed
  | some s =>
    if s = .pausado ∨ s = .abandonado then s
    else if stageMem PRIMARY_STAGE_SEQUENCE s then
      match stageIndex? PRIMARY_STAGE_SEQUENCE s, stageIndex? PRIMARY_STAGE_SEQUENCE computed with
      | some si, some ci => if ci ≤ si then s else computed
      | _, _ => computed
    else computed

/-! ## Field registry and value coercer
(`lead_workflow.py`: `FIELD_SECTION_MAP`, key sets, `_coerce_value`) -/

/-- `FIELD_SECTION_MAP`: extracted field name to (section, attribute). -/
def FIELD_SECTION_MAP : List (String × String × String) :=
  [("nome", "lead_data", "nome_completo"),
   ("nome_cliente", "lead_data", "nome_completo"),
   ("nome_completo", "lead_data", "nome_completo"),
   ("email", "lead_data", "email"),
   ("telefone", "lead_data", "telefone"),
   ("tipo_interesse", "lead_data", "tipo_interesse"),
   ("cpf", "lead_data", "cpf"),
   ("data_nascimento", "lead_data", "data_nascimento"),
   ("renda_mensal", "lead_data", "renda_mensal"),
   ("tipo_negocio", "business_profile", "tipo_negocio"),
   ("estrutura_societaria", "business_profile", "estrutura_societaria"),
   ("numero_socios", "business_profile", "numero_socios"),
   ("faturamento_mei_ok", "business_profile", "faturamento_mei_ok"),
   ("observacao_qualificacao", "business_profile", "observacao"),
   ("aceite_proposta", "proposal_status", "aceite_proposta"),
   ("aceite", "proposal_status", "aceite_proposta"),
   ("motivo_objecao", "proposal_status", "motivo_objecao"),
   ("objecao_resolvida", "proposal_status", "objecao_resolvida"),
   ("nome_contrato", "contract_data", "nome_completo"),
   ("cpf_contrato", "contract_data", "cpf"),
   ("email_contrato", "contract_data", "email"),
   ("telefone_contrato", "contract_data", "telefone"),
   ("data_nascimento_contrato", "contract_data", "data_nascimento"),
   ("metodo_assinatura", "contract_data", "metodo_assinatura"),
   ("contrato_assinado", "contract_data", "contrato_assinado"),
   ("rg_frente", "document_status", "rg_frente"),
   ("rg_verso", "document_status", "rg_verso"),
   ("cnh_frente", "document_status", "rg_frente"),
   ("cnh_verso", "document_status", "rg_verso"),
   ("comprovante_residencia", "document_status", "comprovante_residencia"),
   ("titulo_eleitor", "document_status", "titulo_eleitor"),
   ("documento_valido", "document_status", "documento_valido"),
   ("nome_fantasia", "company_profile", "nome_fantasia"),
   ("razao_social", "company_profile", "razao_social"),
   ("razao_social_sugerida", "company_profile", "razao_social"),
   ("capital_social", "company_profile", "capital_social"),
   ("participacoes", "company_profile", "participacoes"),
   ("participacoes_definidas", "company_profile", "participacoes_definidas"),
   ("descricao_atividade", "company_profile", "descricao_atividade"),
   ("cnae_principal", "company_profile", "cnae_principal"),
   ("cnae_principal_codigo", "company_profile", "cnae_principal_codigo"),
   ("cnae_principal_descricao", "company_profile", "cnae_principal_descricao"),
   ("cnaes_secundarios", "company_profile", "cnaes_secundarios"),
   ("cnaes_confirmados", "company_profile", "cnaes_confirmados"),
   ("endereco_tipo", "company_profile", "endereco_tipo"),
   ("cidade_escritorio_virtual", "company_profile", "cidade_escritorio_virtual"),
   ("aceite_escritorio_virtual", "company_profile", "aceite_escritorio_virtual"),
   ("cep", "company_profile", "cep"),
   ("numero", "company_profile", "numero"),
   ("complemento", "company_profile", "complemento"),
   ("endereco_completo", "company_profile", "endereco_completo"),
   ("endereco_confirmado", "company_profile", "endereco_confirmado"),
   ("confirmacao_inicial", "initial_confirmation", "confirmado"),
   ("dados_corretos", "initial_confirmation", "confirmado"),
   ("precisa_ajustar", "initial_confirmation", "precisa_ajustar"),
   ("revisao_confirmada", "review_status", "confirmado"),
   ("precisa_editar", "review_status", "precisa_editar"),
   ("campo_para_editar", "review_status", "campo_para_editar"),
   ("processo_status", "process_status", "status"),
   ("processo_etapa", "process_status", "etapa_atual"),
   ("processo_mensagem", "process_status", "mensagem"),
   ("processo_finalizado", "process_status", "finalizado"),
   ("cnpj", "process_status", "cnpj"),
   ("tempo_estimado", "process_status", "tempo_estimado")]

/-- `FIELD_SECTION_MAP.get(field)`. -/
def fieldSection? (field : String) : Option (String × String) :=
  (FIELD_SECTION_MAP.find? (fun e => e.1 == field)).map (·.2)

/-- `BOOL_KEYS`. -/
def BOOL_KEYS : List String :=
  ["faturamento_mei_ok", "aceite_proposta", "aceite", "objecao_resolvida",
   "contrato_assinado", "documento_valido", "participacoes_definidas",
   "cnaes_confirmados", "aceite_escritorio_virtual", "endereco_confirmado",
   "revisao_confirmada", "precisa_editar", "processo_finalizado"]

/-- `INT_KEYS`. -/
def INT_KEYS : List String := ["numero_socios"]

/-- `FLOAT_KEYS`. -/
def FLOAT_KEYS : List String := ["renda_mensal", "capital_social"]

/-- `LIST_KEYS`. -/
def LIST_KEYS : List String := ["cnaes_secundarios", "participacoes"]

/-- Lookup in a literal synonym table. -/
def tableGet? (table : List (String × String)) (k : String) : Option String :=
  (table.find? (fun e => e.1 == k)).map (·.2)

/-- `mapping.get(normalized, normalized or None)`: mapped values go to
the canonical token, unmapped nonempty input passes through, empty
normalization yields `None`. -/
def tableGetOrPassthrough (table : List (String × String)) (n : String) : Value :=
  match tableGet? table n with
  | some c => .str c
  | none => if n == "" then .null else .str n

/-- Synonym table for `tipo_interesse`. -/
def TIPO_INTERESSE_MAP : List (String × String) :=
  [("1", "primeira_empresa"), ("primeira", "primeira_empresa"),
   ("primeira empresa", "primeira_empresa"),
   ("abrindo primeira empresa", "primeira_empresa"),
   ("primeira_empresa", "primeira_empresa"),
   ("2", "nova_empresa"), ("nova", "nova_empresa"),
   ("nova empresa", "nova_empresa"), ("abrindo nova empresa", "nova_empresa"),
   ("tenho outras", "nova_empresa"), ("tenho outra", "nova_empresa"),
   ("nova_empresa", "nova_empresa"),
   ("3", "conhecendo"), ("conhecendo", "conhecendo"),
   ("apenas conhecendo", "conhecendo"), ("somente conhecendo", "conhecendo"),
   ("curioso", "conhecendo")]

/-- Synonym table for `tipo_negocio`. -/
def TIPO_NEGOCIO_MAP : List (String × String) :=
  [("comercio", "comercio"), ("comércio", "comercio"), ("venda", "comercio"),
   ("produtos", "comercio"),
   ("servicos", "servicos"), ("serviços", "servicos"), ("servico", "servicos"),
   ("serviço", "servicos"), ("consultoria", "servicos"),
   ("industria", "industria"), ("indústria", "industria"),
   ("industrial", "industria"), ("fabricacao", "industria"),
   ("fabricação", "industria"),
   ("misto", "misto"), ("comercio servicos", "misto"),
   ("comércio serviços", "misto"), ("comercio e servicos", "misto"),
   ("comércio e serviços", "misto")]

/-- Synonym table for `estrutura_societaria`. -/
def ESTRUTURA_MAP : List (String × String) :=
  [("mei", "mei"), ("sozinho", "mei"), ("individual", "mei"),
   ("sem socios", "mei"), ("sem sócios", "mei"),
   ("socios", "socios"), ("sócios", "socios"), ("com socios", "socios"),
   ("com sócios", "socios"), ("sociedade", "socios"), ("ltda", "socios"),
   ("indefinido", "indefinido"), ("ainda nao sei", "indefinido"),
   ("ainda não sei", "indefinido"), ("nao sei", "indefinido"),
   ("não sei", "indefinido")]

/-- Synonym table for `metodo_assinatura`. -/
def METODO_ASSINATURA_MAP : List (String × String) :=
  [("sms", "sms"), ("celular", "sms"), ("telefone", "sms"), ("mensagem", "sms"),
   ("email", "email"), ("e mail", "email"), ("e-mail", "email"),
   ("whatsapp", "whatsapp"), ("zap", "whatsapp")]

/-- Synonym table for `endereco_tipo`. -/
def ENDERECO_TIPO_MAP : List (String × String) :=
  [("virtual", "virtual"), ("escritorio virtual", "virtual"),
   ("escritório virtual", "virtual"),
   ("residencial", "residencial"), ("casa", "residencial"),
   ("comercial", "comercial"), ("escritorio proprio", "comercial"),
   ("escritório proprio", "comercial"), ("escritorio próprio", "comercial"),
   ("escritório próprio", "comercial")]

/-- `re.sub(r"[^a-z ]", "", str(value).lower()).strip()`. -/
def normalizeAz (v : Value) : String :=
  pyStrip (keepChars isAzOrSpace (pyLower (pyStr v)))

/-- `re.sub(r"[^a-z0-9 ]", "", str(value).lower()).strip()`. -/
def normalizeAz09 (v : Value) : String :=
  pyStrip (keepChars isAz09OrSpace (pyLower (pyStr v)))

/-- Python `int(float)` truncation toward zero. -/
def ratTrunc (q : Rat) : Int := if 0 ≤ q then ⌊q⌋ else ⌈q⌉

/-- `re.split(r"[,;]", value)` with per-part strip and empty filtering. -/
def splitListString (s : String) : VList :=
  VList.ofList
    ((((s.split (fun c => c == ',' || c == ';')).map pyStrip).filter (· != "")).map .str)

/-- Canonical punctuated CPF form `ddd.ddd.ddd-dd` of an 11-digit string. -/
def formatCpf (digits : List Char) : String :=
  String.mk (digits.take 3) ++ "." ++ String.mk ((digits.drop 3).take 3) ++ "." ++
    String.mk ((digits.drop 6).take 3) ++ "-" ++ String.mk (digits.drop 9)

/-- `_coerce_value(key, value)`: validation and type conversion of a raw
extracted value, with `Value.null` standing for the Python `None`
returned on a failed coercion. -/
def coerce_value (key : String) (value : Value) : Value :=
  if value.isNull then .null
  else if BOOL_KEYS.contains key then
    match value with
    | .bool _ => value
    | .int n => .bool (n != 0)
    | .float q => .bool (q != 0)
    | .str s =>
      let lowered := pyLower (pyStrip s)
      if ["sim", "yes", "y", "true", "verdade", "confirmo", "ok"].contains lowered then .bool true
      else if ["não", "nao", "no", "false", "n"].contains lowered then .bool false
      else .null
    | _ => .null
  else if INT_KEYS.contains key then
    match value with
    | .bool b => .int (if b then 1 else 0)
    | .int n => .int n
    | .float q => .int (ratTrunc q)
    | .str s =>
      match pyIntParse s with
      | some n => .int n
      | none => .null
    | _ => .null
  else if FLOAT_KEYS.contains key then
    let cleaned := pyReplace (pyReplace (pyReplace (pyStr value) "R$" "") "." "") "," "."
    match pyFloatParse cleaned with
    | some q => .float q
    | none => .null
  else if LIST_KEYS.contains key then
    match value with
    | .list _ => value
    | .str s => .list (splitListString s)
    | v => v
  else if key == "cpf" then
    let digits := (pyStr value).toList.filter isDigitChar
    if digits.length == 11 then .str (formatCpf digits) else .null
  else if key == "tipo_interesse" then
    match tableGet? TIPO_INTERESSE_MAP (normalizeAz09 value) with
    | some c => .str c
    | none => .null
  else if key == "tipo_negocio" then
    tableGetOrPassthrough TIPO_NEGOCIO_MAP (normalizeAz value)
  else if key == "estrutura_societaria" then
    tableGetOrPassthrough ESTRUTURA_MAP (normalizeAz value)
  else if key == "metodo_assinatura" then
    tableGetOrPassthrough METODO_ASSINATURA_MAP (normalizeAz value)
  else if key == "endereco_tipo" then
    tableGetOrPassthrough ENDERECO_TIPO_MAP (normalizeAz value)
  else
    match value with
    | .str s => .str (pyStrip s)
    | v => v

/-! ## Context updates
(`lead_workflow.py`: `_update_context_with_extracted_data` and helpers,
`check_qualification` from the context model) -/

/-- The runtime error a merge can raise (Python `TypeError` from the
order comparison in `check_qualification` when a non-numeric value has
been stored in `renda_mensal`). -/
inductive PyError where
  | typeError
deriving DecidableEq, Repr

/-- Insert a comma every three digits, from the right. -/
def groupThousands (s : String) : String :=
  let rec go : List Char → List Char
    | c1 :: c2 :: c3 :: c4 :: rest => c1 :: ',' :: go (c2 :: c3 :: c4 :: rest)
    | l => l
  String.mk ((go s.toList.reverse).reverse)

/-- Python format spec `,.2f` on a numeric value (grouped thousands, two
decimals); exactness of the rounding is irrelevant to every claim, only
determinism matters. -/
def pyMoneyFormat (q : Rat) : String :=
  let cents : Int := round (q * 100)
  let sign := if cents < 0 then "-" else ""
  let n := cents.natAbs
  sign ++ groupThousands (toString (n / 100)) ++ "." ++
    (if n % 100 < 10 then "0" else "") ++ toString (n % 100)

/-- `context.check_qualification()`: recompute the qualification flag
from `renda_mensal`; `renda >= 5000` raises `TypeError` when a
non-numeric value was stored there. -/
def check_qualification (ctx : ConversationContext) : Except PyError ConversationContext :=
  match ctx.lead_data.renda_mensal with
  | .null => .ok ctx
  | v =>
    match v.toNum? with
    | none => .error .typeError
    | some q =>
      if 5000 ≤ q then
        .ok { ctx with is_qualified := true,
                       qualification_reason :=
                         .str ("Qualificado: renda mensal de R$" ++ pyMoneyFormat q) }
      else
        .ok { ctx with is_qualified := false,
                       qualification_reason :=
                         .str ("Não qualificado: renda mensal de R$" ++ pyMoneyFormat q ++
                               " (mínimo R$5.000)") }

/-- `_track_field_collection(context, field_name)`: append-if-absent. -/
def track_field_collection (ctx : ConversationContext) (field_name : String) : ConversationContext :=
  if ctx.fields_collected.contains field_name then ctx
  else { ctx with fields_collected := ctx.fields_collected ++ [field_name] }

/-- One iteration of the field loop inside
`_update_context_with_extracted_data`: registry lookup, coercion with
raw-value fallback, guarded write, collection tracking. -/
def apply_extracted_field (ctx : ConversationContext) (field : String) (value : Value) : ConversationContext :=
  match fieldSection? field with
  | none => ctx
  | some (sec, attrName) =>
    let parsed0 := coerce_value attrName value
    let parsed :=
      if parsed0.isNull && !(pyEq value .null || pyEq value (.str "")) then value else parsed0
    if sec == "lead_data" then
      let current := ctx.lead_data.getAttr attrName
      if parsed.truthy && !pyEq current parsed then
        track_field_collection
          { ctx with lead_data := ctx.lead_data.setAttr attrName parsed } attrName
      else ctx
    else
      let secd := getSectionDict ctx sec
      let current := dictGet secd attrName
      if !(pyEq parsed .null || pyEq parsed (.str "")) && !pyEq current parsed then
        track_field_collection
          (setSectionDict ctx sec (dictSet secd attrName parsed))
          (sec ++ "." ++ attrName)
      else ctx

/-- The five identity attributes synchronized by `_sync_contract_data`,
in source order. -/
def SYNC_ATTRS : List String :=
  ["nome_completo", "cpf", "email", "telefone", "data_nascimento"]

/-- One `if contract.get(a) and not lead.a: lead.a = contract[a]` step of
`_sync_contract_data`. -/
def syncContractToLead (ctx : ConversationContext) (a : String) : ConversationContext :=
  if (dictGet ctx.contract_data a).truthy && !(ctx.lead_data.getAttr a).truthy then
    { ctx with lead_data := ctx.lead_data.setAttr a (dictGet ctx.contract_data a) }
  else ctx

/-- One `if lead.a and not contract.get(a): contract[a] = lead.a` step of
`_sync_contract_data`. -/
def syncLeadToContract (ctx : ConversationContext) (a : String) : ConversationContext :=
  if (ctx.lead_data.getAttr a).truthy && !(dictGet ctx.contract_data a).truthy then
    { ctx with contract_data := dictSet ctx.contract_data a (ctx.lead_data.getAttr a) }
  else ctx

/-- `_sync_contract_data(context)`: bidirectional fill of the five
identity attributes between `lead_data` and `contract_data` — first the
five contract-to-lead fills, then the five lead-to-contract fills, in
source order. -/
def sync_contract_data (ctx : ConversationContext) : ConversationContext :=
  SYNC_ATTRS.foldl syncLeadToContract (SYNC_ATTRS.foldl syncContractToLead ctx)

/-- `_infer_tipo_interesse(user_text)`. -/
def infer_tipo_interesse (user_text : String) : Option String :=
  let cleaned := pyStrip (keepChars isAz09OrSpace (pyLower user_text))
  if ["1", "primeira"].any (fun t => containsSub cleaned t) then some "primeira_empresa"
  else if ["2", "nova", "outra", "outras"].any (fun t => containsSub cleaned t) then some "nova_empresa"
  else if ["3", "conhecendo", "curios", "avaliando"].any (fun t => containsSub cleaned t) then some "conhecendo"
  else none

/-- `_infer_estrutura_societaria(user_text)`. -/
def infer_estrutura_societaria (user_text : String) : Option String :=
  let cleaned := pyStrip (keepChars isAzOrSpace (pyLower user_text))
  if ["sozinho", "mei", "individual"].any (fun t => containsSub cleaned t) then some "mei"
  else if containsSub cleaned "socio" || containsSub cleaned "sócio" || containsSub cleaned "socios" then some "socios"
  else if containsSub cleaned "nao sei" || containsSub cleaned "não sei" || containsSub cleaned "duvida" then some "indefinido"
  else none

/-- `_infer_tipo_negocio(user_text)`. -/
def infer_tipo_negocio (user_text : String) : Option String :=
  let cleaned := pyStrip (keepChars isAzOrSpace (pyLower user_text))
  let business_intent_keywords :=
    ["abrir empresa", "primeira empresa", "nova empresa", "meu negocio",
     "minha empresa", "empreender", "negocio proprio", "trabalhar por conta"]
  if business_intent_keywords.any (fun t => containsSub cleaned t) then
    if ["vender", "produto", "loja", "comercio"].any (fun t => containsSub cleaned t) then some "comercio"
    else if ["fabrica", "producao", "industria", "manufatura"].any (fun t => containsSub cleaned t) then some "industria"
    else if ["servico", "consultoria", "atendimento", "prestacao"].any (fun t => containsSub cleaned t) then some "servicos"
    else some "servicos"
  else none

/-- The content of the most recent user message, lowercased (empty when
there is none). -/
def latestUserMessageLower (ctx : ConversationContext) : String :=
  match ctx.messages_exchanged.reverse.find? (fun m => m.role == "user") with
  | some m => pyLower m.content
  | none => ""

/-- Option-to-value for the tipo_interesse assignment (the source
assigns the inference result even when it is `None`). -/
def optStr : Option String → Value
  | none => .null
  | some s => .str s

/-- First block of `_apply_fallback_inferences`: infer `tipo_interesse`
when it is still falsy and there is a latest user message (the inference
result is assigned even when it is `None`; tracking happens only when
the assigned value is truthy). -/
def infer_interest_block (latest : String) (ctx : ConversationContext) : ConversationContext :=
  if !ctx.lead_data.tipo_interesse.truthy && latest != "" then
    let c := { ctx with lead_data :=
      { ctx.lead_data with tipo_interesse := optStr (infer_tipo_interesse latest) } }
    if c.lead_data.tipo_interesse.truthy then track_field_collection c "tipo_interesse" else c
  else ctx

/-- Second block of `_apply_fallback_inferences`: infer
`estrutura_societaria` (written and tracked only when the inference
yields a value). -/
def infer_estrutura_block (latest : String) (ctx : ConversationContext) : ConversationContext :=
  if !(dictGet ctx.business_profile "estrutura_societaria").truthy && latest != "" then
    match infer_estrutura_societaria latest with
    | some inferred =>
      track_field_collection
        { ctx with business_profile :=
            dictSet ctx.business_profile "estrutura_societaria" (.str inferred) }
        "business_profile.estrutura_societaria"
    | none => ctx
  else ctx

/-- Third block of `_apply_fallback_inferences`: infer `tipo_negocio`. -/
def infer_negocio_block (latest : String) (ctx : ConversationContext) : ConversationContext :=
  if !(dictGet ctx.business_profile "tipo_negocio").truthy && latest != "" then
    match infer_tipo_negocio latest with
    | some inferred =>
      track_field_collection
        { ctx with business_profile :=
            dictSet ctx.business_profile "tipo_negocio" (.str inferred) }
        "business_profile.tipo_negocio"
    | none => ctx
  else ctx

/-- `_apply_fallback_inferences(context)`: the three inference blocks in
source order, all reading the same latest user message. -/
def apply_fallback_inferences (ctx : ConversationContext) : ConversationContext :=
  let latest := latestUserMessageLower ctx
  infer_negocio_block latest (infer_estrutura_block latest (infer_interest_block latest ctx))

/-- `_update_context_with_extracted_data(context, extracted)`: early
return on an empty payload, per-field guarded writes, qualification
recheck (which can raise), contract sync and fallback inferences. -/
def update_context_with_extracted_data (ctx : ConversationContext)
    (extracted : List (String × Value)) : Except PyError ConversationContext :=
  if extracted.isEmpty then .ok ctx
  else
    let c1 := extracted.foldl (fun c fv => apply_extracted_field c fv.1 fv.2) ctx
    match check_qualification c1 with
    | .error e => .error e
    | .ok c2 => .ok (apply_fallback_inferences (sync_contract_data c2))

/-! ## History bookkeeping (`_trim_history`, turn-level appends) -/

/-- `_trim_history(context, limit)`: keep the last `limit` entries when
the history exceeds the cap (`messages[-limit:]`; the Python slice with
`limit = 0` keeps everything, reproduced here for fidelity, though the
source only ever calls this with the default cap of 50). -/
def trim_history (limit : Nat) (msgs : List Message) : List Message :=
  if msgs.length > limit then
    if limit == 0 then msgs else msgs.drop (msgs.length - limit)
  else msgs

/-- The history maintenance of one completed turn: `_record_user_message`
appends the (nonempty) user text and trims, `_postprocess_agent_output`
appends the parsed assistant reply when nonempty and always trims. -/
def turn_messages (cap : Nat) (msgs : List Message) (userText assistantText : String) : List Message :=
  let m1 :=
    if userText != "" then trim_history cap (msgs ++ [⟨"user", userText⟩]) else msgs
  let m2 :=
    if assistantText != "" then m1 ++ [⟨"assistant", assistantText⟩] else m1
  trim_history cap m2

/-- Iterated turns (history view only). -/
def run_turns (cap : Nat) (init : List Message) : List (String × String) → List Message
  | [] => init
  | (u, a) :: rest => run_turns cap (turn_messages cap init u a) rest

/-- The messages a list of turns appends (before any trimming): the
full stream against which FIFO eviction is stated. -/
def turn_stream : List (String × String) → List Message
  | [] => []
  | (u, a) :: rest =>
    (if u != "" then [⟨"user", u⟩] else []) ++
      (if a != "" then [⟨"assistant", a⟩] else []) ++ turn_stream rest

/-! ## Structured-response parsing
(`json.loads` modelled to the JSON grammar it implements, and
`_parse_agent_response`).  The non-standard `NaN`/`Infinity` literals
accepted by Python json are not modelled (no float claim involves
them). -/

/-- JSON insignificant whitespace. -/
def jsonWs (cs : List Char) : List Char :=
  cs.dropWhile (fun c => c == ' ' || c == '\t' || c == '\n' || c == '\r')

/-- Hex digit value. -/
def hexVal? (c : Char) : Option Nat :=
  if '0' ≤ c && c ≤ '9' then some (c.toNat - 48)
  else if 'a' ≤ c && c ≤ 'f' then some (c.toNat - 87)
  else if 'A' ≤ c && c ≤ 'F' then some (c.toNat - 55)
  else none

/-- JSON string body after the opening quote: the decoded characters and
the remainder after the closing quote (surrogate pairs are decoded as
two separate code points; no claim involves them). -/
def jsonString : List Char → Option (List Char × List Char)
  | [] => none
  | c :: rest =>
    if c == '"' then some ([], rest)
    else if c == '\\' then
      match rest with
      | [] => none
      | e :: rest2 =>
        if e == 'u' then
          match rest2 with
          | h1 :: h2 :: h3 :: h4 :: rest3 =>
            match hexVal? h1, hexVal? h2, hexVal? h3, hexVal? h4 with
            | some a, some b, some c2, some d =>
              (jsonString rest3).map
                (fun p => (Char.ofNat (((a * 16 + b) * 16 + c2) * 16 + d) :: p.1, p.2))
            | _, _, _, _ => none
          | _ => none
        else
          let ch? : Option Char :=
            if e == '"' then some '"'
            else if e == '\\' then some '\\'
            else if e == '/' then some '/'
            else if e == 'b' then some '\x08'
            else if e == 'f' then some '\x0c'
            else if e == 'n' then some '\n'
            else if e == 'r' then some '\r'
            else if e == 't' then some '\t'
            else none
          match ch? with
          | some ch => (jsonString rest2).map (fun p => (ch :: p.1, p.2))
          | none => none
    else if c.toNat < 32 then none
    else (jsonString rest).map (fun p => (c :: p.1, p.2))

/-- JSON number at the head of the input: `int` when it has neither a
fraction nor an exponent, `float` otherwise, as in Python json. -/
def jsonNumber (cs : List Char) : Option (Value × List Char) :=
  let (neg, cs1) :=
    match cs with
    | '-' :: r => (true, r)
    | r => (false, r)
  let intDigits := cs1.takeWhile isDigitChar
  let rest := cs1.drop intDigits.length
  if intDigits.isEmpty then none
  else if intDigits.length > 1 && intDigits.head? == some '0' then none
  else
    let fracRes : Option (List Char × List Char) :=
      match rest with
      | '.' :: r =>
        let fd := r.takeWhile isDigitChar
        if fd.isEmpty then none else some (fd, r.drop fd.length)
      | r => some ([], r)
    match fracRes with
    | none => none
    | some (fd, rest2) =>
      let expRes : Option (Option Int × List Char) :=
        match rest2 with
        | e :: r =>
          if e == 'e' || e == 'E' then
            let (es, r2) :=
              match r with
              | '+' :: r3 => ((1 : Int), r3)
              | '-' :: r3 => ((-1 : Int), r3)
              | r3 => ((1 : Int), r3)
            let ed := r2.takeWhile isDigitChar
            if ed.isEmpty then none
            else some (some (es * (digitsToNat ed : Int)), r2.drop ed.length)
          else some (none, rest2)
        | [] => some (none, rest2)
      match expRes with
      | none => none
      | some (exp?, rest3) =>
        let isFloat := !fd.isEmpty || exp?.isSome
        let mag : Rat :=
          (digitsToNat intDigits : Rat) + (digitsToNat fd : Rat) / (10 : Rat) ^ fd.length
        let mag :=
          match exp? with
          | some ex => mag * (10 : Rat) ^ ex
          | none => mag
        if isFloat then some (.float (if neg then -mag else mag), rest3)
        else
          some (.int (if neg then -(digitsToNat intDigits : Int) else (digitsToNat intDigits : Int)), rest3)

mutual
/-- Recursive-descent JSON value parser (fuel bounds nesting). -/
def jsonParse (fuel : Nat) (cs : List Char) : Option (Value × List Char) :=
  match fuel with
  | 0 => none
  | fuel + 1 =>
    match jsonWs cs with
    | [] => none
    | c :: rest =>
      if c == '"' then (jsonString rest).map (fun p => (.str (String.mk p.1), p.2))
      else if c == '\x7b' then
        match jsonWs rest with
        | '\x7d' :: r => some (.dict .nil, r)
        | r => jsonMembers fuel r .nil
      else if c == '[' then
        match jsonWs rest with
        | ']' :: r => some (.list .nil, r)
        | r => jsonElements fuel r []
      else if c == 't' then
        match rest with
        | 'r' :: 'u' :: 'e' :: r => some (.bool true, r)
        | _ => none
      else if c == 'f' then
        match rest with
        | 'a' :: 'l' :: 's' :: 'e' :: r => some (.bool false, r)
        | _ => none
      else if c == 'n' then
        match rest with
        | 'u' :: 'l' :: 'l' :: r => some (.null, r)
        | _ => none
      else jsonNumber (c :: rest)

/-- Members of a JSON object (positioned at a key). -/
def jsonMembers (fuel : Nat) (cs : List Char) (acc : VDict) : Option (Value × List Char) :=
  match fuel with
  | 0 => none
  | fuel + 1 =>
    match jsonWs cs with
    | '"' :: r =>
      match jsonString r with
      | none => none
      | some (keyChars, r2) =>
        match jsonWs r2 with
        | ':' :: r3 =>
          match jsonParse fuel r3 with
          | none => none
          | some (v, r4) =>
            let acc2 := acc.set (String.mk keyChars) v
            match jsonWs r4 with
            | ',' :: r5 => jsonMembers fuel r5 acc2
            | '\x7d' :: r5 => some (.dict acc2, r5)
            | _ => none
        | _ => none
    | _ => none

/-- Elements of a JSON array (positioned at a value). -/
def jsonElements (fuel : Nat) (cs : List Char) (acc : List Value) : Option (Value × List Char) :=
  match fuel with
  | 0 => none
  | fuel + 1 =>
    match jsonParse fuel cs with
    | none => none
    | some (v, r) =>
      match jsonWs r with
      | ',' :: r2 => jsonElements fuel r2 (acc ++ [v])
      | ']' :: r2 => some (.list (VList.ofList (acc ++ [v])), r2)
      | _ => none
end

/-- `json.loads(s)`: parse one JSON value and require only whitespace
after it. -/
def json_loads (s : String) : Option Value :=
  match jsonParse (s.length + 1) s.toList with
  | some (v, rest) => if (jsonWs rest).isEmpty then some v else none
  | none => none

/-- The stage constructor applied to a parsed `next_stage` value
(`ConversationStage(value)`; a non-string or unknown token raises
`ValueError`, which the parser catches, leaving no suggestion). -/
def stageFromValue : Value → Option ConversationStage
  | .str s => ConversationStage.fromString? s
  | _ => none

/-- `_parse_agent_response(raw_response)`: the (reply, extracted,
suggested stage) triple.  `extracted` is returned exactly as the payload
provides it (an empty dict when absent, falsy, or unparseable). -/
def parse_agent_response (raw : String) : String × Value × Option ConversationStage :=
  if raw == "" then ("", .dict .nil, none)
  else
    match splitOnce raw "---DATA---" with
    | none => (pyStrip raw, .dict .nil, none)
    | some (message_part, data_part) =>
      let message_text := pyStrip message_part
      let json_text := pyStrip (pyReplace (pyReplace (pyStrip data_part) "```json" "") "```" "")
      if json_text == "" then (message_text, .dict .nil, none)
      else
        match json_loads json_text with
        | none => (message_text, .dict .nil, none)
        | some payload =>
          match payload with
          | .dict d =>
            let e0 := (d.find? "extracted").getD (.dict .nil)
            let extracted := if e0.truthy then e0 else .dict .nil
            let next_stage_value :=
              pyOr ((d.find? "next_stage").getD .null) ((d.find? "stage").getD .null)
            let suggested := if next_stage_value.truthy then stageFromValue next_stage_value else none
            (message_text, extracted, suggested)
          | _ => (message_text, .dict .nil, none)

/-! ## Helper lemmas -/

theorem dictFind?_set_self (d : PyDict) (k : String) (v : Value) :
    dictFind? (dictSet d k v) k = some v := by
  induction d with
  | nil => simp [dictSet, dictFind?]
  | cons kv rest ih =>
    obtain ⟨k1, w⟩ := kv
    by_cases h : k1 == k
    · simp [dictSet, dictFind?, h]
    · simp [dictSet, dictFind?, h, ih]

theorem dictFind?_set_ne (d : PyDict) (k k2 : String) (v : Value) (h : k ≠ k2) :
    dictFind? (dictSet d k v) k2 = dictFind? d k2 := by
  induction d with
  | nil => simp [dictSet, dictFind?, h]
  | cons kv rest ih =>
    obtain ⟨k1, w⟩ := kv
    by_cases h1 : k1 == k
    · have hk : k1 = k := by simpa using h1
      subst hk
      simp [dictSet, dictFind?, h]
    · by_cases h2 : k1 == k2 <;> simp_all [dictSet, dictFind?]

theorem dictGet_set_self (d : PyDict) (k : String) (v : Value) :
    dictGet (dictSet d k v) k = v := by
  simp [dictGet, dictFind?_set_self]

theorem dictGet_set_ne (d : PyDict) (k k2 : String) (v : Value) (h : k ≠ k2) :
    dictGet (dictSet d k v) k2 = dictGet d k2 := by
  simp [dictGet, dictFind?_set_ne _ _ _ _ h]

theorem dictSet_set_self (d : PyDict) (k : String) (v w : Value) :
    dictSet (dictSet d k v) k w = dictSet d k w := by
  induction d with
  | nil => simp [dictSet]
  | cons kv rest ih =>
    obtain ⟨k1, w1⟩ := kv
    by_cases h : k1 == k <;> simp_all [dictSet]

theorem dictSet_of_find? (d : PyDict) (k : String) (v : Value)
    (h : dictFind? d k = some v) : dictSet d k v = d := by
  induction d with
  | nil => simp [dictFind?] at h
  | cons kv rest ih =>
    obtain ⟨k1, w1⟩ := kv
    by_cases h1 : k1 == k
    · simp [dictFind?, h1] at h
      simp [dictSet, h1, h]
    · simp [dictFind?, h1] at h
      simp [dictSet, h1, ih h]

theorem Value.isTrueConst_eq_bool (v : Value) (h : v.isTrueConst = true) : v = .bool true := by
  cases v with
  | bool b =>
    cases b with
    | true => rfl
    | false => exact Bool.noConfusion h
  | null => exact Bool.noConfusion h
  | int n => exact Bool.noConfusion h
  | float q => exact Bool.noConfusion h
  | str s => exact Bool.noConfusion h
  | list xs => exact Bool.noConfusion h
  | dict xs => exact Bool.noConfusion h

theorem Value.isTrueConst_truthy (v : Value) (h : v.isTrueConst = true) : v.truthy = true := by
  rw [Value.isTrueConst_eq_bool v h]
  rfl

/-- Missing-fields emptiness at `processamento` forces the finalization
flag to be literally `True`. -/
theorem processamento_isEmpty_finalizado (ctx : ConversationContext)
    (h : (get_missing_fields .processamento ctx).isEmpty = true) :
    (dictGet ctx.process_status "finalizado").isTrueConst = true := by
  unfold get_missing_fields at h
  by_cases hc : (dictGet ctx.process_status "finalizado").isTrueConst <;> simp_all

/-! ## C1: stage determinizer vs the specified canonical-stage walk -/

/-- C1 (counterexample): a context whose stored stage is `concluido` is
neither `pausado` nor `abandonado`, yet the determinizer keeps
`concluido` while the specified predicate walk yields `inicial`; with
the same collected data but stored stage `inicial` the result differs,
so the result does depend on the previously stored stage. -/
theorem C1_counterexample :
    ({ stage := .concluido } : ConversationContext).stage ≠ .pausado ∧
    ({ stage := .concluido } : ConversationContext).stage ≠ .abandonado ∧
    determine_primary_stage { stage := .concluido } = .concluido ∧
    specCanonicalStage { stage := .concluido } = .inicial ∧
    determine_primary_stage { stage := .inicial } = .inicial := by
  refine ⟨by decide, by decide, rfl, rfl, rfl⟩

/-- C1 (amended): for a context whose stored stage is none of `pausado`,
`abandonado`, `concluido` (the determinizer also keeps `concluido`
unchanged) and whose `process_status["status"]` is not `"abandonado"`
(which the determinizer short-circuits to `abandonado`), the
determinizer returns the first primary stage whose missing-fields
predicate is nonempty, and the final completed stage when every
predicate is empty; under these conditions the result depends only on
the collected data. -/
theorem C1_amended (ctx : ConversationContext)
    (h1 : ctx.stage ≠ .pausado) (h2 : ctx.stage ≠ .abandonado) (h3 : ctx.stage ≠ .concluido)
    (h4 : pyEq (dictGet ctx.process_status "status") (.str "abandonado") = false) :
    determine_primary_stage ctx = specCanonicalStage ctx := by
  unfold determine_primary_stage
  rw [if_neg (by simp [h1, h2, h3]), if_neg (by simp [h4])]
  simp only [specCanonicalStage, PRIMARY_STAGE_SEQUENCE]
  cases m1 : (get_missing_fields .inicial ctx).isEmpty with
  | false => simp [determineWalk, List.find?, m1]
  | true =>
  cases m2 : (get_missing_fields .confirmacao_inicial ctx).isEmpty with
  | false => simp [determineWalk, List.find?, m1, m2]
  | true =>
  cases m3 : (get_missing_fields .qualificacao ctx).isEmpty with
  | false => simp [determineWalk, List.find?, m1, m2, m3]
  | true =>
  cases m4 : (get_missing_fields .proposta ctx).isEmpty with
  | false => simp [determineWalk, List.find?, m1, m2, m3, m4]
  | true =>
  cases m5 : (get_missing_fields .contratacao ctx).isEmpty with
  | false => simp [determineWalk, List.find?, m1, m2, m3, m4, m5]
  | true =>
  cases m6 : (get_missing_fields .coleta_documentos_pessoais ctx).isEmpty with
  | false => simp [determineWalk, List.find?, m1, m2, m3, m4, m5, m6]
  | true =>
  cases m7 : (get_missing_fields .definicao_empresa ctx).isEmpty with
  | false => simp [determineWalk, List.find?, m1, m2, m3, m4, m5, m6, m7]
  | true =>
  cases m8 : (get_missing_fields .escolha_cnae ctx).isEmpty with
  | false => simp [determineWalk, List.find?, m1, m2, m3, m4, m5, m6, m7, m8]
  | true =>
  cases m9 : (get_missing_fields .endereco_comercial ctx).isEmpty with
  | false => simp [determineWalk, List.find?, m1, m2, m3, m4, m5, m6, m7, m8, m9]
  | true =>
  cases m10 : (get_missing_fields .revisao_final ctx).isEmpty with
  | false => simp [determineWalk, List.find?, m1, m2, m3, m4, m5, m6, m7, m8, m9, m10]
  | true =>
  cases m11 : (get_missing_fields .processamento ctx).isEmpty with
  | false => simp [determineWalk, List.find?, m1, m2, m3, m4, m5, m6, m7, m8, m9, m10, m11]
  | true =>
    have hfin : (dictGet ctx.process_status "finalizado").truthy = true :=
      Value.isTrueConst_truthy _ (processamento_isEmpty_finalizado ctx m11)
    have hcon : (get_missing_fields .concluido ctx).isEmpty = true := rfl
    simp [determineWalk, List.find?, m1, m2, m3, m4, m5, m6, m7, m8, m9, m10, m11, hfin, hcon]

/-- C1 (witness). -/
theorem C1_amended_witness :
    ({} : ConversationContext).stage ≠ .pausado ∧
    pyEq (dictGet ({} : ConversationContext).process_status "status") (.str "abandonado") = false ∧
    determine_primary_stage {} = specCanonicalStage {} :=
  ⟨by decide, by rfl, C1_amended {} (by decide) (by decide) (by decide) (by rfl)⟩

/-! ## C2: transition policy -/

/-- C2: the transition policy accepts `pausado`/`abandonado` suggestions
unconditionally, accepts a primary suggestion whose index is at least
the canonical stage index, rejects a strictly lower suggestion in favor
of the canonical stage, and uses the canonical stage when there is no
suggestion. -/
theorem C2_transition_policy (ctx : ConversationContext) :
    (apply_stage_transition ctx none = determine_primary_stage ctx) ∧
    (∀ s, s = .pausado ∨ s = .abandonado → apply_stage_transition ctx (some s) = s) ∧
    (∀ s si ci,
      stageIndex? PRIMARY_STAGE_SEQUENCE s = some si →
      stageIndex? PRIMARY_STAGE_SEQUENCE (determine_primary_stage ctx) = some ci →
      (ci ≤ si → apply_stage_transition ctx (some s) = s) ∧
      (si < ci → apply_stage_transition ctx (some s) = determine_primary_stage ctx)) := by
  refine ⟨rfl, ?_, ?_⟩
  · intro s hs
    rcases hs with rfl | rfl <;> rfl
  · intro s si ci hs hc
    have hside : ¬(s = .pausado ∨ s = .abandonado) := by
      rintro (rfl | rfl)
      · rw [show stageIndex? PRIMARY_STAGE_SEQUENCE .pausado = none from rfl] at hs
        exact Option.noConfusion hs
      · rw [show stageIndex? PRIMARY_STAGE_SEQUENCE .abandonado = none from rfl] at hs
        exact Option.noConfusion hs
    have hmem : stageMem PRIMARY_STAGE_SEQUENCE s = true := by
      simp [stageMem, hs]
    constructor
    · intro hle
      simp only [apply_stage_transition]
      rw [if_neg hside, if_pos hmem]
      simp only [hs, hc]
      rw [if_pos hle]
    · intro hlt
      simp only [apply_stage_transition]
      rw [if_neg hside, if_pos hmem]
      simp only [hs, hc]
      rw [if_neg (by omega)]

/-- C2 (witness): at a context whose canonical stage is `qualificacao`
(index 2), a `pausado` suggestion is accepted, a `contratacao`
suggestion (index 4) is accepted, and an `inicial` suggestion (index 0)
is rejected in favor of the canonical stage. -/
theorem C2_transition_policy_witness :
    apply_stage_transition
      { initial_confirmation := [("confirmado", .bool true)],
        lead_data := { nome_completo := .str "Ana" } } (some .pausado) = .pausado ∧
    apply_stage_transition
      { initial_confirmation := [("confirmado", .bool true)],
        lead_data := { nome_completo := .str "Ana" } } (some .contratacao) = .contratacao ∧
    apply_stage_transition
      { initial_confirmation := [("confirmado", .bool true)],
        lead_data := { nome_completo := .str "Ana" } } (some .inicial) =
      determine_primary_stage
        { initial_confirmation := [("confirmado", .bool true)],
          lead_data := { nome_completo := .str "Ana" } } := by
  refine ⟨(C2_transition_policy _).2.1 _ (Or.inl rfl), ?_, ?_⟩
  · exact ((C2_transition_policy _).2.2 .contratacao 4 2 (by rfl) (by rfl)).1 (by omega)
  · exact ((C2_transition_policy _).2.2 .inicial 0 2 (by rfl) (by rfl)).2 (by omega)

/-! ## C4: response-parser degradation -/

/-- C4 (counterexample): with no marker the reply is the input stripped
of surrounding whitespace, not the entire input text. -/
theorem C4_counterexample :
    parse_agent_response " Hello " = ("Hello", .dict .nil, none) ∧
    ("Hello" : String) ≠ " Hello " := ⟨rfl, by decide⟩

/-- C4 (amended): the parser always returns a (reply, extracted,
suggested-stage) triple; with no marker the reply is the whole input
stripped of surrounding whitespace, the extraction is empty and no
stage is suggested; with a marker whose JSON segment (after code-fence
cleanup) fails to parse, the reply is the stripped part before the
marker with the same empty degradation. -/
theorem C4_amended :
    (∀ s, splitOnce s "---DATA---" = none →
      parse_agent_response s = (pyStrip s, .dict .nil, none)) ∧
    (∀ s pre post, splitOnce s "---DATA---" = some (pre, post) →
      json_loads (pyStrip (pyReplace (pyReplace (pyStrip post) "```json" "") "```" "")) = none →
      parse_agent_response s = (pyStrip pre, .dict .nil, none)) := by
  constructor
  · intro s h
    by_cases hs : s = ""
    · subst hs; rfl
    · unfold parse_agent_response
      rw [if_neg (by simp [hs]), h]
  · intro s pre post h hj
    have hs : s ≠ "" := by
      intro he
      subst he
      rw [show splitOnce "" "---DATA---" = none from rfl] at h
      exact Option.noConfusion h
    unfold parse_agent_response
    rw [if_neg (by simp [hs]), h]
    simp only
    split
    · rfl
    · rw [hj]

/-- C4 (witness). -/
theorem C4_amended_witness :
    splitOnce "Hi there" "---DATA---" = none ∧
    parse_agent_response "Hi there" = (pyStrip "Hi there", .dict .nil, none) ∧
    splitOnce "A\n---DATA---\nnot json" "---DATA---" = some ("A\n", "\nnot json") ∧
    parse_agent_response "A\n---DATA---\nnot json" = (pyStrip "A\n", .dict .nil, none) :=
  ⟨rfl, C4_amended.1 "Hi there" rfl, rfl,
   C4_amended.2 "A\n---DATA---\nnot json" "A\n" "\nnot json" rfl rfl⟩

/-! ## C5: parser round-trip on the two-part example -/

/-- C5 (counterexample): on the spec round-trip input the parser
suggests no stage at all: `"qualification"` is not one of the stage
enum tokens (the enum value is `"qualificacao"`), so the
`ConversationStage` construction fails and is discarded. -/
theorem C5_counterexample :
    (parse_agent_response
        "Hello\n---DATA---\n\x7b\"extracted\":\x7b\"name\":\"Ana\"\x7d,\"next_stage\":\"qualification\"\x7d").2.2 = none ∧
    ConversationStage.fromString? "qualification" = none ∧
    (none : Option ConversationStage) ≠ some .qualificacao := ⟨rfl, rfl, by decide⟩

/-- C5 (amended): parsing the two-part input yields reply `"Hello"` and
extracted `{"name": "Ana"}`, but no suggested stage, because
`"qualification"` is not a recognized stage token. -/
theorem C5_amended :
    parse_agent_response
        "Hello\n---DATA---\n\x7b\"extracted\":\x7b\"name\":\"Ana\"\x7d,\"next_stage\":\"qualification\"\x7d" =
      ("Hello", .dict (.cons "name" (.str "Ana") .nil), none) := rfl

/-! ## C9: categorical coercion -/

/-- C9 (counterexample): for the interest-type field an unmapped
non-empty input is discarded (`None`), not passed through as its
normalized lowercase token. -/
theorem C9_counterexample :
    coerce_value "tipo_interesse" (.str "franquia") = .null ∧
    normalizeAz09 (.str "franquia") = "franquia" ∧
    Value.null ≠ .str "franquia" := ⟨rfl, rfl, by decide⟩

/-- C9 (amended): for `tipo_negocio`, `estrutura_societaria`,
`metodo_assinatura` and `endereco_tipo` a mapped normalized input yields
the canonical token and an unmapped non-empty normalized input passes
through as the normalized token; for `tipo_interesse` a mapped input
yields the canonical token but an unmapped input is discarded. -/
theorem C9_amended :
    (∀ s c, tableGet? TIPO_NEGOCIO_MAP (normalizeAz (.str s)) = some c →
      coerce_value "tipo_negocio" (.str s) = .str c) ∧
    (∀ s, tableGet? TIPO_NEGOCIO_MAP (normalizeAz (.str s)) = none → normalizeAz (.str s) ≠ "" →
      coerce_value "tipo_negocio" (.str s) = .str (normalizeAz (.str s))) ∧
    (∀ s c, tableGet? ESTRUTURA_MAP (normalizeAz (.str s)) = some c →
      coerce_value "estrutura_societaria" (.str s) = .str c) ∧
    (∀ s, tableGet? ESTRUTURA_MAP (normalizeAz (.str s)) = none → normalizeAz (.str s) ≠ "" →
      coerce_value "estrutura_societaria" (.str s) = .str (normalizeAz (.str s))) ∧
    (∀ s c, tableGet? METODO_ASSINATURA_MAP (normalizeAz (.str s)) = some c →
      coerce_value "metodo_assinatura" (.str s) = .str c) ∧
    (∀ s, tableGet? METODO_ASSINATURA_MAP (normalizeAz (.str s)) = none → normalizeAz (.str s) ≠ "" →
      coerce_value "metodo_assinatura" (.str s) = .str (normalizeAz (.str s))) ∧
    (∀ s c, tableGet? ENDERECO_TIPO_MAP (normalizeAz (.str s)) = some c →
      coerce_value "endereco_tipo" (.str s) = .str c) ∧
    (∀ s, tableGet? ENDERECO_TIPO_MAP (normalizeAz (.str s)) = none → normalizeAz (.str s) ≠ "" →
      coerce_value "endereco_tipo" (.str s) = .str (normalizeAz (.str s))) ∧
    (∀ s c, tableGet? TIPO_INTERESSE_MAP (normalizeAz09 (.str s)) = some c →
      coerce_value "tipo_interesse" (.str s) = .str c) ∧
    (∀ s, tableGet? TIPO_INTERESSE_MAP (normalizeAz09 (.str s)) = none →
      coerce_value "tipo_interesse" (.str s) = .null) := by
  refine ⟨?_, ?_, ?_, ?_, ?_, ?_, ?_, ?_, ?_, ?_⟩
  · intro s c h
    show tableGetOrPassthrough TIPO_NEGOCIO_MAP (normalizeAz (.str s)) = .str c
    unfold tableGetOrPassthrough
    rw [h]
  · intro s h hne
    show tableGetOrPassthrough TIPO_NEGOCIO_MAP (normalizeAz (.str s)) = .str (normalizeAz (.str s))
    unfold tableGetOrPassthrough
    rw [h, if_neg (by simp [hne])]
  · intro s c h
    show tableGetOrPassthrough ESTRUTURA_MAP (normalizeAz (.str s)) = .str c
    unfold tableGetOrPassthrough
    rw [h]
  · intro s h hne
    show tableGetOrPassthrough ESTRUTURA_MAP (normalizeAz (.str s)) = .str (normalizeAz (.str s))
    unfold tableGetOrPassthrough
    rw [h, if_neg (by simp [hne])]
  · intro s c h
    show tableGetOrPassthrough METODO_ASSINATURA_MAP (normalizeAz (.str s)) = .str c
    unfold tableGetOrPassthrough
    rw [h]
  · intro s h hne
    show tableGetOrPassthrough METODO_ASSINATURA_MAP (normalizeAz (.str s)) = .str (normalizeAz (.str s))
    unfold tableGetOrPassthrough
    rw [h, if_neg (by simp [hne])]
  · intro s c h
    show tableGetOrPassthrough ENDERECO_TIPO_MAP (normalizeAz (.str s)) = .str c
    unfold tableGetOrPassthrough
    rw [h]
  · intro s h hne
    show tableGetOrPassthrough ENDERECO_TIPO_MAP (normalizeAz (.str s)) = .str (normalizeAz (.str s))
    unfold tableGetOrPassthrough
    rw [h, if_neg (by simp [hne])]
  · intro s c h
    show (match tableGet? TIPO_INTERESSE_MAP (normalizeAz09 (.str s)) with
          | some c => Value.str c
          | none => Value.null) = .str c
    rw [h]
  · intro s h
    show (match tableGet? TIPO_INTERESSE_MAP (normalizeAz09 (.str s)) with
          | some c => Value.str c
          | none => Value.null) = .null
    rw [h]

/-- C9 (witness). -/
theorem C9_amended_witness :
    coerce_value "tipo_negocio" (.str "Consultoria!") = .str "servicos" ∧
    coerce_value "tipo_negocio" (.str "padaria") = .str "padaria" ∧
    coerce_value "estrutura_societaria" (.str "LTDA") = .str "socios" ∧
    coerce_value "metodo_assinatura" (.str "Zap") = .str "whatsapp" ∧
    coerce_value "endereco_tipo" (.str "casa") = .str "residencial" ∧
    coerce_value "tipo_interesse" (.str "curioso") = .str "conhecendo" ∧
    coerce_value "tipo_interesse" (.str "franquia") = .null :=
  ⟨C9_amended.1 "Consultoria!" "servicos" rfl,
   C9_amended.2.1 "padaria" rfl (by decide),
   C9_amended.2.2.1 "LTDA" "socios" rfl,
   C9_amended.2.2.2.2.1 "Zap" "whatsapp" rfl,
   C9_amended.2.2.2.2.2.2.1 "casa" "residencial" rfl,
   C9_amended.2.2.2.2.2.2.2.2.1 "curioso" "conhecendo" rfl,
   C9_amended.2.2.2.2.2.2.2.2.2 "franquia" rfl⟩

/-! ## C3: failed coercion does not discard the field -/

/-- C3 (counterexample): "123" fails the national-identifier coercion
(3 digits, not 11), yet merging writes the raw value into the context
attribute and records the field in `fields_collected`; the other field
of the payload is applied as claimed. -/
theorem C3_counterexample :
    coerce_value "cpf" (.str "123") = .null ∧
    (update_context_with_extracted_data {} [("cpf", .str "123"), ("email", .str "a@b.com")]).toOption.map
        (fun c => (c.lead_data.cpf, c.lead_data.email, c.fields_collected)) =
      some (.str "123", .str "a@b.com", ["cpf", "email"]) ∧
    Value.str "123" ≠ Value.null := ⟨rfl, rfl, by decide⟩

/-- C3 (amended): a registered field whose non-empty raw value fails its
coercion rule is not discarded: the per-field merge step falls back to
the raw value itself and applies it under the usual write guards
(truthiness and change for a `lead_data` attribute, non-`None`/non-empty
and change for a section entry), tracking the field on a write; the
per-field step itself raises nothing, and the loop applies every other
field of the payload independently (a non-numeric value written into
`renda_mensal` can still make the subsequent qualification recheck
raise). -/
theorem C3_amended (ctx : ConversationContext) (field : String) (v : Value)
    (sec attrName : String)
    (hf : fieldSection? field = some (sec, attrName))
    (hc : coerce_value attrName v = .null)
    (hn : pyEq v .null = false) (he : pyEq v (.str "") = false) :
    apply_extracted_field ctx field v =
      (if sec == "lead_data" then
        if v.truthy && !pyEq (ctx.lead_data.getAttr attrName) v then
          track_field_collection
            { ctx with lead_data := ctx.lead_data.setAttr attrName v } attrName
        else ctx
      else
        if !pyEq (dictGet (getSectionDict ctx sec) attrName) v then
          track_field_collection
            (setSectionDict ctx sec (dictSet (getSectionDict ctx sec) attrName v))
            (sec ++ "." ++ attrName)
        else ctx) := by
  unfold apply_extracted_field
  rw [hf]
  simp [hc, hn, he, Value.isNull]

/-- C3 (witness). -/
theorem C3_amended_witness :
    fieldSection? "cpf" = some ("lead_data", "cpf") ∧
    coerce_value "cpf" (.str "123") = .null ∧
    pyEq (.str "123") .null = false ∧
    pyEq (.str "123") (.str "") = false ∧
    apply_extracted_field {} "cpf" (.str "123") =
      (if ("lead_data" == "lead_data") then
        if (Value.str "123").truthy &&
            !pyEq (({} : ConversationContext).lead_data.getAttr "cpf") (.str "123") then
          track_field_collection
            { ({} : ConversationContext) with
                lead_data := ({} : ConversationContext).lead_data.setAttr "cpf" (.str "123") } "cpf"
        else {}
      else
        if !pyEq (dictGet (getSectionDict {} "lead_data") "cpf") (.str "123") then
          track_field_collection
            (setSectionDict {} "lead_data" (dictSet (getSectionDict {} "lead_data") "cpf" (.str "123")))
            ("lead_data" ++ "." ++ "cpf")
        else {}) :=
  ⟨rfl, rfl, rfl, rfl, C3_amended {} "cpf" (.str "123") "lead_data" "cpf" rfl rfl rfl rfl⟩

/-! ## C6: canonical-stage monotonicity across a merge -/

/-- C6 (counterexample): a context whose canonical stage is
`contratacao` (index 4), merged with the payload
`{"aceite_proposta": false}`, recomputes to canonical stage `proposta`
(index 3): a merge of extracted field values can move the canonical
stage to an earlier index. -/
theorem C6_counterexample :
    stageIndex? PRIMARY_STAGE_SEQUENCE (determine_primary_stage
      { stage := .contratacao, lead_data := { nome_completo := .str "Ana" },
        initial_confirmation := [("confirmado", .bool true)],
        business_profile := [("tipo_negocio", .str "servicos"),
                             ("estrutura_societaria", .str "mei"),
                             ("faturamento_mei_ok", .bool true)],
        proposal_status := [("aceite_proposta", .bool true)] }) = some 4 ∧
    (update_context_with_extracted_data
      { stage := .contratacao, lead_data := { nome_completo := .str "Ana" },
        initial_confirmation := [("confirmado", .bool true)],
        business_profile := [("tipo_negocio", .str "servicos"),
                             ("estrutura_societaria", .str "mei"),
                             ("faturamento_mei_ok", .bool true)],
        proposal_status := [("aceite_proposta", .bool true)] }
      [("aceite_proposta", .bool false)]).toOption.map
        (fun c => stageIndex? PRIMARY_STAGE_SEQUENCE (determine_primary_stage c)) =
      some (some 3) ∧
    (3 : Nat) < 4 := ⟨rfl, rfl, by omega⟩

/-- C6 (amended): what the code does guarantee is that, within a single
turn, the transition policy never stores a primary stage at a strictly
lower index than that turn's canonical stage: its output is the
canonical stage itself, a forced side state, or a primary stage whose
index is at least the canonical index.  Across turns the canonical index
itself can still regress when a merge overwrites a previously satisfied
gating field. -/
theorem C6_amended (ctx : ConversationContext) (sug : Option ConversationStage) :
    apply_stage_transition ctx sug = determine_primary_stage ctx ∨
    apply_stage_transition ctx sug = .pausado ∨
    apply_stage_transition ctx sug = .abandonado ∨
    (∃ si ci, stageIndex? PRIMARY_STAGE_SEQUENCE (apply_stage_transition ctx sug) = some si ∧
      stageIndex? PRIMARY_STAGE_SEQUENCE (determine_primary_stage ctx) = some ci ∧ ci ≤ si) := by
  match sug with
  | none => exact Or.inl rfl
  | some s =>
    by_cases hside : s = .pausado ∨ s = .abandonado
    · have : apply_stage_transition ctx (some s) = s := by
        simp only [apply_stage_transition]
        rw [if_pos hside]
      rcases hside with rfl | rfl
      · exact Or.inr (Or.inl this)
      · exact Or.inr (Or.inr (Or.inl this))
    · by_cases hmem : stageMem PRIMARY_STAGE_SEQUENCE s = true
      · obtain ⟨si, hsi⟩ : ∃ si, stageIndex? PRIMARY_STAGE_SEQUENCE s = some si := by
          unfold stageMem at hmem
          exact Option.isSome_iff_exists.mp hmem
        match hci : stageIndex? PRIMARY_STAGE_SEQUENCE (determine_primary_stage ctx) with
        | none =>
          left
          simp only [apply_stage_transition]
          rw [if_neg hside, if_pos hmem]
          simp only [hsi, hci]
        | some ci =>
          by_cases hle : ci ≤ si
          · right; right; right
            refine ⟨si, ci, ?_, rfl, hle⟩
            have : apply_stage_transition ctx (some s) = s := by
              simp only [apply_stage_transition]
              rw [if_neg hside, if_pos hmem]
              simp only [hsi, hci]
              rw [if_pos hle]
            rw [this, hsi]
          · left
            simp only [apply_stage_transition]
            rw [if_neg hside, if_pos hmem]
            simp only [hsi, hci]
            rw [if_neg hle]
      · left
        simp only [apply_stage_transition]
        rw [if_neg hside, if_neg (by simpa using hmem)]

/-! ## C8: bounded FIFO history -/

theorem trim_history_eq_drop (cap : Nat) (l : List Message) (hcap : 1 ≤ cap) :
    trim_history cap l = l.drop (l.length - cap) := by
  unfold trim_history
  by_cases h : l.length > cap
  · rw [if_pos h, if_neg (by simp; omega)]
  · rw [if_neg h]
    have h0 : l.length - cap = 0 := by omega
    rw [h0, List.drop_zero]

theorem trim_history_absorb (cap : Nat) (x y : List Message) (hcap : 1 ≤ cap) :
    trim_history cap (trim_history cap x ++ y) = trim_history cap (x ++ y) := by
  rw [trim_history_eq_drop cap x hcap, trim_history_eq_drop cap _ hcap,
      trim_history_eq_drop cap _ hcap,
      ← List.drop_append_of_le_length (by omega), List.drop_drop]
  congr 1
  simp only [List.length_append, List.length_drop]
  omega

theorem turn_messages_eq (cap : Nat) (msgs : List Message) (u a : String) (hcap : 1 ≤ cap) :
    turn_messages cap msgs u a =
      trim_history cap
        (msgs ++ ((if u != "" then [⟨"user", u⟩] else []) ++
                  (if a != "" then [⟨"assistant", a⟩] else []))) := by
  unfold turn_messages
  by_cases hu : (u != "") = true
  · by_cases ha : (a != "") = true
    · simp only [hu, ha, if_true]
      rw [trim_history_absorb cap _ _ hcap]
      simp
    · simp only [hu, ha, if_true, if_false]
      have := trim_history_absorb cap (msgs ++ [⟨"user", u⟩]) [] hcap
      simpa using this
  · by_cases ha : (a != "") = true
    · simp [hu, ha]
    · simp [hu, ha]

theorem run_turns_eq (cap : Nat) (hcap : 1 ≤ cap) :
    ∀ (ts : List (String × String)) (init : List Message),
      run_turns cap (trim_history cap init) ts = trim_history cap (init ++ turn_stream ts) := by
  intro ts
  induction ts with
  | nil => intro init; simp [run_turns, turn_stream]
  | cons p rest ih =>
    intro init
    obtain ⟨u, a⟩ := p
    show run_turns cap (turn_messages cap (trim_history cap init) u a) rest = _
    rw [turn_messages_eq cap _ u a hcap, trim_history_absorb cap _ _ hcap,
        show trim_history cap
            (init ++ ((if u != "" then [⟨"user", u⟩] else []) ++
                      (if a != "" then [⟨"assistant", a⟩] else []))) =
          trim_history cap
            (init ++ ((if u != "" then [⟨"user", u⟩] else []) ++
                      (if a != "" then [⟨"assistant", a⟩] else []))) from rfl,
        ih]
    rw [List.append_assoc]
    rfl

theorem turn_stream_length_ge (ts : List (String × String)) (h : ∀ p ∈ ts, p.1 ≠ "") :
    ts.length ≤ (turn_stream ts).length := by
  induction ts with
  | nil => simp [turn_stream]
  | cons p rest ih =>
    obtain ⟨u, a⟩ := p
    have hu : u ≠ "" := h (u, a) (List.mem_cons_self _ _)
    have hr := ih (fun q hq => h q (List.mem_cons_of_mem _ hq))
    simp only [turn_stream, List.length_cons, List.length_append]
    rw [if_pos (by simpa using hu)]
    by_cases ha : (a != "") = true <;> simp [ha] <;> omega

/-- C8: after any completed turn the history length is at most the cap
(50 in the implementation, parametric here); eviction is FIFO — the kept
history is a suffix of the full appended stream; and after N+50 turns
with cap N starting from an empty history, exactly N entries remain and
the dropped prefix has at least 50 entries (the oldest ones). -/
theorem C8_bounded_history :
    (∀ cap msgs u a, 1 ≤ cap → (turn_messages cap msgs u a).length ≤ cap) ∧
    (∀ cap msgs u a, 1 ≤ cap →
      ∃ dropped, msgs ++ turn_stream [(u, a)] = dropped ++ turn_messages cap msgs u a) ∧
    (∀ N ts, 1 ≤ N → ts.length = N + 50 → (∀ p ∈ ts, p.1 ≠ "") →
      (run_turns N [] ts).length = N ∧
      ∃ dropped, turn_stream ts = dropped ++ run_turns N [] ts ∧ 50 ≤ dropped.length) := by
  refine ⟨?_, ?_, ?_⟩
  · intro cap msgs u a hcap
    rw [turn_messages_eq cap msgs u a hcap, trim_history_eq_drop cap _ hcap]
    simp only [List.length_drop]
    omega
  · intro cap msgs u a hcap
    rw [turn_messages_eq cap msgs u a hcap, trim_history_eq_drop cap _ hcap]
    have hLs : msgs ++ turn_stream [(u, a)] =
        msgs ++ ((if u != "" then [({ role := "user", content := u } : Message)] else []) ++
                 (if a != "" then [({ role := "assistant", content := a } : Message)] else [])) := by
      simp [turn_stream]
    rw [hLs]
    exact ⟨_, (List.take_append_drop _ _).symm⟩
  · intro N ts hN hlen hne
    have hrun : run_turns N [] ts = trim_history N (turn_stream ts) := by
      have h1 := run_turns_eq N hN ts []
      rw [show trim_history N ([] : List Message) = [] from by simp [trim_history]] at h1
      rw [List.nil_append] at h1
      exact h1
    have hsl : N + 50 ≤ (turn_stream ts).length := by
      have := turn_stream_length_ge ts hne
      omega
    rw [hrun, trim_history_eq_drop N _ hN]
    constructor
    · simp only [List.length_drop]
      omega
    · refine ⟨(turn_stream ts).take ((turn_stream ts).length - N), ?_, ?_⟩
      · rw [List.take_append_drop]
      · simp only [List.length_take]
        omega

/-- C8 (witness). -/
theorem C8_bounded_history_witness :
    (turn_messages 1 [] "hi" "ok").length ≤ 1 ∧
    (∃ dropped, ([] : List Message) ++ turn_stream [("hi", "ok")] =
      dropped ++ turn_messages 1 [] "hi" "ok") ∧
    (run_turns 1 [] (List.replicate 51 ("u", "a"))).length = 1 := by
  refine ⟨?_, ?_, ?_⟩
  · exact C8_bounded_history.1 1 [] "hi" "ok" (by omega)
  · exact C8_bounded_history.2.1 1 [] "hi" "ok" (by omega)
  · refine (C8_bounded_history.2.2 1 (List.replicate 51 ("u", "a")) (by omega) (by simp) ?_).1
    intro p hp
    have hpe := List.eq_of_mem_replicate hp
    rw [hpe]
    decide

/-! ## State lemmas for the merge pipeline -/

theorem LeadData.getAttr_setAttr_cases (l : LeadData) (name : String) (v : Value) (a : String) :
    (l.setAttr name v).getAttr a = l.getAttr a ∨ (l.setAttr name v).getAttr a = v := by
  unfold LeadData.setAttr LeadData.getAttr
  split <;> (try split) <;> first | exact Or.inl rfl | exact Or.inr rfl

theorem LeadData.getAttr_setAttr_ne (l : LeadData) (name : String) (v : Value) (a : String)
    (h : name ≠ a) : (l.setAttr name v).getAttr a = l.getAttr a := by
  unfold LeadData.setAttr LeadData.getAttr
  split <;> (try split) <;> first | rfl | (exfalso; simp_all)

theorem track_field_collection_lead (c : ConversationContext) (n : String) :
    (track_field_collection c n).lead_data = c.lead_data := by
  unfold track_field_collection
  split <;> rfl

theorem track_field_collection_contract (c : ConversationContext) (n : String) :
    (track_field_collection c n).contract_data = c.contract_data := by
  unfold track_field_collection
  split <;> rfl

theorem setSectionDict_lead (c : ConversationContext) (s : String) (d : PyDict) :
    (setSectionDict c s d).lead_data = c.lead_data := by
  unfold setSectionDict
  split <;> rfl

theorem syncLeadToContract_lead (c : ConversationContext) (b : String) :
    (syncLeadToContract c b).lead_data = c.lead_data := by
  unfold syncLeadToContract
  split <;> rfl

theorem syncContractToLead_contract (c : ConversationContext) (b : String) :
    (syncContractToLead c b).contract_data = c.contract_data := by
  unfold syncContractToLead
  split <;> rfl

theorem check_qualification_ok_state (c c2 : ConversationContext)
    (h : check_qualification c = .ok c2) :
    c2.lead_data = c.lead_data ∧ c2.contract_data = c.contract_data ∧
    c2.business_profile = c.business_profile ∧ c2.fields_collected = c.fields_collected ∧
    c2.messages_exchanged = c.messages_exchanged ∧
    c2.initial_confirmation = c.initial_confirmation ∧
    c2.proposal_status = c.proposal_status ∧ c2.document_status = c.document_status ∧
    c2.company_profile = c.company_profile ∧ c2.review_status = c.review_status ∧
    c2.process_status = c.process_status ∧ c2.stage = c.stage ∧
    c2.conversation_turns = c.conversation_turns := by
  unfold check_qualification at h
  split at h
  · cases h
    exact ⟨rfl, rfl, rfl, rfl, rfl, rfl, rfl, rfl, rfl, rfl, rfl, rfl, rfl⟩
  · split at h
    · exact Except.noConfusion h
    · split at h <;> (cases h; exact ⟨rfl, rfl, rfl, rfl, rfl, rfl, rfl, rfl, rfl, rfl, rfl, rfl, rfl⟩)

theorem LeadData.getAttr_setAttr_self (l : LeadData) (name : String) (v : Value)
    (h : name ∈ (["nome_completo", "email", "telefone", "tipo_interesse", "cpf",
      "data_nascimento", "renda_mensal", "empresa", "cargo", "tem_empresa",
      "precisa_contabilidade"] : List String)) :
    (l.setAttr name v).getAttr name = v := by
  fin_cases h <;> rfl

theorem foldl_sCL_contract (bs : List String) (c : ConversationContext) :
    (bs.foldl syncContractToLead c).contract_data = c.contract_data := by
  induction bs generalizing c with
  | nil => rfl
  | cons b bs ih => rw [List.foldl_cons, ih, syncContractToLead_contract]

theorem foldl_sLC_lead (bs : List String) (c : ConversationContext) :
    (bs.foldl syncLeadToContract c).lead_data = c.lead_data := by
  induction bs generalizing c with
  | nil => rfl
  | cons b bs ih => rw [List.foldl_cons, ih, syncLeadToContract_lead]

theorem syncContractToLead_lead_ne (c : ConversationContext) (b a : String) (h : b ≠ a) :
    (syncContractToLead c b).lead_data.getAttr a = c.lead_data.getAttr a := by
  unfold syncContractToLead
  split
  · exact LeadData.getAttr_setAttr_ne _ _ _ _ h
  · rfl

theorem syncLeadToContract_contract_ne (c : ConversationContext) (b a : String) (h : b ≠ a) :
    dictGet (syncLeadToContract c b).contract_data a = dictGet c.contract_data a := by
  unfold syncLeadToContract
  split
  · exact dictGet_set_ne _ _ _ _ h
  · rfl

theorem foldl_sCL_lead_ne (bs : List String) (c : ConversationContext) (a : String)
    (h : a ∉ bs) :
    (bs.foldl syncContractToLead c).lead_data.getAttr a = c.lead_data.getAttr a := by
  induction bs generalizing c with
  | nil => rfl
  | cons b bs ih =>
    rw [List.foldl_cons, ih _ (fun hm => h (List.mem_cons_of_mem _ hm)),
        syncContractToLead_lead_ne c b a (fun he => h (he ▸ List.mem_cons_self _ _))]

theorem foldl_sLC_contract_ne (bs : List String) (c : ConversationContext) (a : String)
    (h : a ∉ bs) :
    dictGet (bs.foldl syncLeadToContract c).contract_data a = dictGet c.contract_data a := by
  induction bs generalizing c with
  | nil => rfl
  | cons b bs ih =>
    rw [List.foldl_cons, ih _ (fun hm => h (List.mem_cons_of_mem _ hm)),
        syncLeadToContract_contract_ne c b a (fun he => h (he ▸ List.mem_cons_self _ _))]

theorem syncContractToLead_self_char (x : ConversationContext) (a : String)
    (hself : ∀ l v, (LeadData.setAttr l a v).getAttr a = v) :
    (syncContractToLead x a).lead_data.getAttr a =
      (if ((dictGet x.contract_data a).truthy && !(x.lead_data.getAttr a).truthy) = true
       then dictGet x.contract_data a else x.lead_data.getAttr a) := by
  by_cases h : ((dictGet x.contract_data a).truthy && !(x.lead_data.getAttr a).truthy) = true
  · rw [if_pos h]
    unfold syncContractToLead
    rw [if_pos h]
    exact hself _ _
  · rw [if_neg h]
    unfold syncContractToLead
    rw [if_neg h]

theorem syncLeadToContract_self_char (x : ConversationContext) (a : String) :
    dictGet (syncLeadToContract x a).contract_data a =
      (if ((x.lead_data.getAttr a).truthy && !(dictGet x.contract_data a).truthy) = true
       then x.lead_data.getAttr a else dictGet x.contract_data a) := by
  by_cases h : ((x.lead_data.getAttr a).truthy && !(dictGet x.contract_data a).truthy) = true
  · rw [if_pos h]
    unfold syncLeadToContract
    rw [if_pos h]
    exact dictGet_set_self _ _ _
  · rw [if_neg h]
    unfold syncLeadToContract
    rw [if_neg h]

/-- After `_sync_contract_data`, a synchronized attribute is truthy on
the lead side exactly when it is truthy on the contract side. -/
theorem sync_pair_general (c : ConversationContext) (a : String) (pre post : List String)
    (hsplit : SYNC_ATTRS = pre ++ a :: post)
    (hpre : a ∉ pre) (hpost : a ∉ post)
    (hself : ∀ l v, (LeadData.setAttr l a v).getAttr a = v) :
    ((sync_contract_data c).lead_data.getAttr a).truthy =
      (dictGet (sync_contract_data c).contract_data a).truthy := by
  unfold sync_contract_data
  rw [hsplit]
  rw [List.foldl_append, List.foldl_cons, List.foldl_append, List.foldl_cons]
  set c1 := pre.foldl syncContractToLead c with hc1
  set c2 := syncContractToLead c1 a with hc2
  set c3 := post.foldl syncContractToLead c2 with hc3
  set d1 := pre.foldl syncLeadToContract c3 with hd1
  set d2 := syncLeadToContract d1 a with hd2
  -- contract side never changes during phase 1
  have hctr1 : dictGet c1.contract_data a = dictGet c.contract_data a := by
    rw [hc1, foldl_sCL_contract]
  have hctr2 : dictGet c2.contract_data a = dictGet c.contract_data a := by
    rw [hc2, syncContractToLead_contract, hctr1]
  have hctr3 : dictGet c3.contract_data a = dictGet c.contract_data a := by
    rw [hc3, foldl_sCL_contract, hctr2]
  -- lead value of `a` after phase 1
  have hlead1 : c1.lead_data.getAttr a = c.lead_data.getAttr a := by
    rw [hc1]; exact foldl_sCL_lead_ne pre c a hpre
  have hlead2 : c2.lead_data.getAttr a =
      (if ((dictGet c.contract_data a).truthy && !(c.lead_data.getAttr a).truthy) = true
       then dictGet c.contract_data a else c.lead_data.getAttr a) := by
    rw [hc2, syncContractToLead_self_char c1 a hself, hctr1, hlead1]
  have hlead3 : c3.lead_data.getAttr a = c2.lead_data.getAttr a := by
    rw [hc3]; exact foldl_sCL_lead_ne post c2 a hpost
  -- phase 2 never changes the lead side
  have hleadd1 : d1.lead_data = c3.lead_data := by rw [hd1, foldl_sLC_lead]
  have hleadd2 : d2.lead_data = c3.lead_data := by
    rw [hd2, syncLeadToContract_lead, hleadd1]
  have hleadfin : (post.foldl syncLeadToContract d2).lead_data = c3.lead_data := by
    rw [foldl_sLC_lead, hleadd2]
  have hctrd1 : dictGet d1.contract_data a = dictGet c.contract_data a := by
    rw [hd1, foldl_sLC_contract_ne pre c3 a hpre, hctr3]
  have hctr_fin : dictGet (post.foldl syncLeadToContract d2).contract_data a =
      (if ((c3.lead_data.getAttr a).truthy && !(dictGet c.contract_data a).truthy) = true
       then c3.lead_data.getAttr a else dictGet c.contract_data a) := by
    rw [foldl_sLC_contract_ne post d2 a hpost, hd2, syncLeadToContract_self_char d1 a,
        hleadd1, hctrd1]
  rw [hleadfin, hctr_fin, hlead3, hlead2]
  by_cases hC : (dictGet c.contract_data a).truthy = true
  · by_cases hL0 : (c.lead_data.getAttr a).truthy = true
    · simp [hC, hL0]
    · simp [hC, hL0]
  · by_cases hL0 : (c.lead_data.getAttr a).truthy = true
    · simp [hC, hL0]
    · simp [hC, hL0]

theorem sync_establishes (c : ConversationContext) :
    ∀ a ∈ SYNC_ATTRS,
      ((sync_contract_data c).lead_data.getAttr a).truthy =
        (dictGet (sync_contract_data c).contract_data a).truthy := by
  intro a ha
  fin_cases ha
  · exact sync_pair_general c "nome_completo" [] ["cpf", "email", "telefone", "data_nascimento"]
      rfl (by decide) (by decide)
      (fun l v => LeadData.getAttr_setAttr_self l "nome_completo" v (by decide))
  · exact sync_pair_general c "cpf" ["nome_completo"] ["email", "telefone", "data_nascimento"]
      rfl (by decide) (by decide)
      (fun l v => LeadData.getAttr_setAttr_self l "cpf" v (by decide))
  · exact sync_pair_general c "email" ["nome_completo", "cpf"] ["telefone", "data_nascimento"]
      rfl (by decide) (by decide)
      (fun l v => LeadData.getAttr_setAttr_self l "email" v (by decide))
  · exact sync_pair_general c "telefone" ["nome_completo", "cpf", "email"] ["data_nascimento"]
      rfl (by decide) (by decide)
      (fun l v => LeadData.getAttr_setAttr_self l "telefone" v (by decide))
  · exact sync_pair_general c "data_nascimento" ["nome_completo", "cpf", "email", "telefone"] []
      rfl (by decide) (by decide)
      (fun l v => LeadData.getAttr_setAttr_self l "data_nascimento" v (by decide))

/-- The fallback inferences touch only `tipo_interesse`, the business
profile and the collection list: the five synchronized identity
attributes and the contract section are left exactly as they were. -/
theorem apply_fallback_inferences_state (c : ConversationContext) :
    (apply_fallback_inferences c).lead_data.nome_completo = c.lead_data.nome_completo ∧
    (apply_fallback_inferences c).lead_data.cpf = c.lead_data.cpf ∧
    (apply_fallback_inferences c).lead_data.email = c.lead_data.email ∧
    (apply_fallback_inferences c).lead_data.telefone = c.lead_data.telefone ∧
    (apply_fallback_inferences c).lead_data.data_nascimento = c.lead_data.data_nascimento ∧
    (apply_fallback_inferences c).lead_data.renda_mensal = c.lead_data.renda_mensal ∧
    (apply_fallback_inferences c).contract_data = c.contract_data := by
  have b1 : ∀ latest x, ((infer_interest_block latest x).lead_data.nome_completo = x.lead_data.nome_completo ∧
      (infer_interest_block latest x).lead_data.cpf = x.lead_data.cpf ∧
      (infer_interest_block latest x).lead_data.email = x.lead_data.email ∧
      (infer_interest_block latest x).lead_data.telefone = x.lead_data.telefone ∧
      (infer_interest_block latest x).lead_data.data_nascimento = x.lead_data.data_nascimento ∧
      (infer_interest_block latest x).lead_data.renda_mensal = x.lead_data.renda_mensal) ∧
      (infer_interest_block latest x).contract_data = x.contract_data := by
    intro latest x
    unfold infer_interest_block
    split
    · dsimp only
      refine ⟨⟨?_, ?_, ?_, ?_, ?_, ?_⟩, ?_⟩ <;>
        (split <;>
          (first
            | rw [track_field_collection_lead]
            | rw [track_field_collection_contract]
            | skip) <;>
          try rfl)
    · exact ⟨⟨rfl, rfl, rfl, rfl, rfl, rfl⟩, rfl⟩
  have b2 : ∀ latest x, (infer_estrutura_block latest x).lead_data = x.lead_data ∧
      (infer_estrutura_block latest x).contract_data = x.contract_data := by
    intro latest x
    unfold infer_estrutura_block
    split
    · split
      · rw [track_field_collection_lead, track_field_collection_contract]
        exact ⟨rfl, rfl⟩
      · exact ⟨rfl, rfl⟩
    · exact ⟨rfl, rfl⟩
  have b3 : ∀ latest x, (infer_negocio_block latest x).lead_data = x.lead_data ∧
      (infer_negocio_block latest x).contract_data = x.contract_data := by
    intro latest x
    unfold infer_negocio_block
    split
    · split
      · rw [track_field_collection_lead, track_field_collection_contract]
        exact ⟨rfl, rfl⟩
      · exact ⟨rfl, rfl⟩
    · exact ⟨rfl, rfl⟩
  unfold apply_fallback_inferences
  obtain ⟨h1a, h1b⟩ := b1 (latestUserMessageLower c) c
  obtain ⟨h2a, h2b⟩ := b2 (latestUserMessageLower c) (infer_interest_block (latestUserMessageLower c) c)
  obtain ⟨h3a, h3b⟩ := b3 (latestUserMessageLower c)
    (infer_estrutura_block (latestUserMessageLower c) (infer_interest_block (latestUserMessageLower c) c))
  refine ⟨?_, ?_, ?_, ?_, ?_, ?_, ?_⟩ <;>
    simp only [h3a, h3b, h2a, h2b, h1b] <;>
    simp [h1a.1, h1a.2.1, h1a.2.2.1, h1a.2.2.2.1, h1a.2.2.2.2.1, h1a.2.2.2.2.2]

theorem syncContractToLead_lead_truthy (x : ConversationContext) (b a : String)
    (h : (x.lead_data.getAttr a).truthy = true) :
    ((syncContractToLead x b).lead_data.getAttr a).truthy = true := by
  unfold syncContractToLead
  split
  · rcases LeadData.getAttr_setAttr_cases x.lead_data b (dictGet x.contract_data b) a with hc | hc
    · rw [show ({ x with lead_data := x.lead_data.setAttr b (dictGet x.contract_data b) } :
          ConversationContext).lead_data = x.lead_data.setAttr b (dictGet x.contract_data b)
          from rfl, hc]
      exact h
    · rename_i hguard
      rw [show ({ x with lead_data := x.lead_data.setAttr b (dictGet x.contract_data b) } :
          ConversationContext).lead_data = x.lead_data.setAttr b (dictGet x.contract_data b)
          from rfl, hc]
      rw [Bool.and_eq_true] at hguard
      exact hguard.1
  · exact h

theorem sync_lead_truthy (c : ConversationContext) (a : String)
    (h : (c.lead_data.getAttr a).truthy = true) :
    ((sync_contract_data c).lead_data.getAttr a).truthy = true := by
  unfold sync_contract_data
  rw [foldl_sLC_lead]
  have step : ∀ (bs : List String) (x : ConversationContext),
      (x.lead_data.getAttr a).truthy = true →
      ((bs.foldl syncContractToLead x).lead_data.getAttr a).truthy = true := by
    intro bs
    induction bs with
    | nil => intro x hx; exact hx
    | cons b bs ih =>
      intro x hx
      rw [List.foldl_cons]
      exact ih _ (syncContractToLead_lead_truthy x b a hx)
  exact step SYNC_ATTRS c h

theorem lead_write_truthy (ctx : ConversationContext) (attrName : String) (parsed : Value)
    (a : String) (hp : parsed.truthy = true)
    (h : (ctx.lead_data.getAttr a).truthy = true) :
    (((track_field_collection
        { ctx with lead_data := ctx.lead_data.setAttr attrName parsed } attrName)).lead_data.getAttr a).truthy = true := by
  rw [track_field_collection_lead]
  rcases LeadData.getAttr_setAttr_cases ctx.lead_data attrName parsed a with hc | hc
  · rw [show ({ ctx with lead_data := ctx.lead_data.setAttr attrName parsed } :
        ConversationContext).lead_data = ctx.lead_data.setAttr attrName parsed from rfl, hc]
    exact h
  · rw [show ({ ctx with lead_data := ctx.lead_data.setAttr attrName parsed } :
        ConversationContext).lead_data = ctx.lead_data.setAttr attrName parsed from rfl, hc]
    exact hp

theorem apply_extracted_field_lead_truthy (ctx : ConversationContext) (f : String) (v : Value)
    (a : String) (h : (ctx.lead_data.getAttr a).truthy = true) :
    ((apply_extracted_field ctx f v).lead_data.getAttr a).truthy = true := by
  unfold apply_extracted_field
  split
  · exact h
  · dsimp only
    repeat' split
    all_goals first
      | exact h
      | (rename_i hguard
         rw [Bool.and_eq_true] at hguard
         exact lead_write_truthy ctx _ _ a hguard.1 h)
      | (rw [track_field_collection_lead, setSectionDict_lead]
         exact h)

theorem foldl_apply_extracted_lead_truthy (p : List (String × Value))
    (ctx : ConversationContext) (a : String)
    (h : (ctx.lead_data.getAttr a).truthy = true) :
    (((p.foldl (fun c fv => apply_extracted_field c fv.1 fv.2) ctx)).lead_data.getAttr a).truthy = true := by
  induction p generalizing ctx with
  | nil => exact h
  | cons fv p ih =>
    rw [List.foldl_cons]
    exact ih _ (apply_extracted_field_lead_truthy ctx fv.1 fv.2 a h)

theorem pyOr_truthy (x y : Value) : (pyOr x y).truthy = (x.truthy || y.truthy) := by
  unfold pyOr
  by_cases h : x.truthy = true <;> simp [h]

theorem mem_ite_singleton {α : Type} {x s : α} {c : Prop} [Decidable c]
    (h : x ∈ (if c then [s] else ([] : List α))) : x = s := by
  split at h
  · simpa using h
  · simp at h

/-- At the `contratacao` stage, a truthy combined (contract-or-lead)
identity value removes the corresponding missing-field descriptor. -/
theorem contratacao_missing_excludes (c' : ConversationContext) :
    ((pyOr (dictGet c'.contract_data "nome_completo") c'.lead_data.nome_completo).truthy = true →
      "nome completo para contrato" ∉ get_missing_fields .contratacao c') ∧
    ((pyOr (dictGet c'.contract_data "cpf") c'.lead_data.cpf).truthy = true →
      "CPF" ∉ get_missing_fields .contratacao c') ∧
    ((pyOr (dictGet c'.contract_data "email") c'.lead_data.email).truthy = true →
      "email para contrato" ∉ get_missing_fields .contratacao c') ∧
    ((pyOr (dictGet c'.contract_data "telefone") c'.lead_data.telefone).truthy = true →
      "telefone para contrato" ∉ get_missing_fields .contratacao c') ∧
    ((pyOr (dictGet c'.contract_data "data_nascimento") c'.lead_data.data_nascimento).truthy = true →
      "data de nascimento" ∉ get_missing_fields .contratacao c') := by
  refine ⟨?_, ?_, ?_, ?_, ?_⟩ <;>
    (intro h hmem
     simp only [get_missing_fields] at hmem
     repeat (first | (rcases List.mem_append.mp hmem with (hmem | hmem)) | (exact absurd (mem_ite_singleton hmem) (by decide)) | simp [h] at hmem))

/-! ## C10: bidirectional identity sync across a merge -/

/-- C10: after every successful merge of a non-empty extraction payload,
each of the five identity attributes is truthy in `lead_data` exactly
when it is truthy in `contract_data` (the sync step fills whichever side
is empty), a truthy lead-side value is never lost by a merge, and a
truthy value satisfies the corresponding contracting-stage missing-field
requirement. -/
theorem C10_contract_sync (ctx : ConversationContext) (p : List (String × Value))
    (c' : ConversationContext) (hne : p ≠ [])
    (hok : update_context_with_extracted_data ctx p = .ok c') :
    (∀ a ∈ SYNC_ATTRS,
      ((c'.lead_data.getAttr a).truthy = (dictGet c'.contract_data a).truthy) ∧
      ((ctx.lead_data.getAttr a).truthy = true → (c'.lead_data.getAttr a).truthy = true)) ∧
    (c'.lead_data.nome_completo.truthy = true →
      "nome completo para contrato" ∉ get_missing_fields .contratacao c') ∧
    (c'.lead_data.cpf.truthy = true → "CPF" ∉ get_missing_fields .contratacao c') ∧
    (c'.lead_data.email.truthy = true →
      "email para contrato" ∉ get_missing_fields .contratacao c') ∧
    (c'.lead_data.telefone.truthy = true →
      "telefone para contrato" ∉ get_missing_fields .contratacao c') ∧
    (c'.lead_data.data_nascimento.truthy = true →
      "data de nascimento" ∉ get_missing_fields .contratacao c') := by
  unfold update_context_with_extracted_data at hok
  rw [if_neg (by simp [hne])] at hok
  dsimp only at hok
  split at hok
  · exact Except.noConfusion hok
  · rename_i c2 hcq
    injection hok with hok
    subst hok
    have hinf := apply_fallback_inferences_state (sync_contract_data c2)
    have hsync := sync_establishes c2
    have hc1lead := (check_qualification_ok_state _ _ hcq).1
    refine ⟨?_, ?_, ?_, ?_, ?_, ?_⟩
    · intro a ha
      constructor
      · have hmem := ha
        fin_cases hmem
        · show ((apply_fallback_inferences (sync_contract_data c2)).lead_data.nome_completo).truthy = _
          rw [hinf.1, hinf.2.2.2.2.2.2]
          exact hsync "nome_completo" (by decide)
        · show ((apply_fallback_inferences (sync_contract_data c2)).lead_data.cpf).truthy = _
          rw [hinf.2.1, hinf.2.2.2.2.2.2]
          exact hsync "cpf" (by decide)
        · show ((apply_fallback_inferences (sync_contract_data c2)).lead_data.email).truthy = _
          rw [hinf.2.2.1, hinf.2.2.2.2.2.2]
          exact hsync "email" (by decide)
        · show ((apply_fallback_inferences (sync_contract_data c2)).lead_data.telefone).truthy = _
          rw [hinf.2.2.2.1, hinf.2.2.2.2.2.2]
          exact hsync "telefone" (by decide)
        · show ((apply_fallback_inferences (sync_contract_data c2)).lead_data.data_nascimento).truthy = _
          rw [hinf.2.2.2.2.1, hinf.2.2.2.2.2.2]
          exact hsync "data_nascimento" (by decide)
      · intro ht
        have h1 := foldl_apply_extracted_lead_truthy p ctx a ht
        have h2 : (c2.lead_data.getAttr a).truthy = true := by rw [hc1lead]; exact h1
        have h3 := sync_lead_truthy c2 a h2
        have hmem := ha
        fin_cases hmem
        · show ((apply_fallback_inferences (sync_contract_data c2)).lead_data.nome_completo).truthy = true
          rw [hinf.1]; exact h3
        · show ((apply_fallback_inferences (sync_contract_data c2)).lead_data.cpf).truthy = true
          rw [hinf.2.1]; exact h3
        · show ((apply_fallback_inferences (sync_contract_data c2)).lead_data.email).truthy = true
          rw [hinf.2.2.1]; exact h3
        · show ((apply_fallback_inferences (sync_contract_data c2)).lead_data.telefone).truthy = true
          rw [hinf.2.2.2.1]; exact h3
        · show ((apply_fallback_inferences (sync_contract_data c2)).lead_data.data_nascimento).truthy = true
          rw [hinf.2.2.2.2.1]; exact h3
    · intro ht
      refine (contratacao_missing_excludes _).1 ?_
      rw [pyOr_truthy]
      simp [ht]
    · intro ht
      refine (contratacao_missing_excludes _).2.1 ?_
      rw [pyOr_truthy]
      simp [ht]
    · intro ht
      refine (contratacao_missing_excludes _).2.2.1 ?_
      rw [pyOr_truthy]
      simp [ht]
    · intro ht
      refine (contratacao_missing_excludes _).2.2.2.1 ?_
      rw [pyOr_truthy]
      simp [ht]
    · intro ht
      refine (contratacao_missing_excludes _).2.2.2.2 ?_
      rw [pyOr_truthy]
      simp [ht]

/-! ## C7: idempotence of the per-field write step, and its failure for the
full merge -/

theorem track_track (c : ConversationContext) (n : String) :
    track_field_collection (track_field_collection c n) n = track_field_collection c n := by
  unfold track_field_collection
  by_cases h : c.fields_collected.contains n = true
  · rw [if_pos h, if_pos h]
  · rw [if_neg h]
    have h2 : (({ c with fields_collected := c.fields_collected ++ [n] } :
        ConversationContext).fields_collected.contains n) = true := by
      simp
    rw [if_pos h2]

theorem getSectionDict_track (c : ConversationContext) (n s : String) :
    getSectionDict (track_field_collection c n) s = getSectionDict c s := by
  unfold track_field_collection
  split
  · rfl
  · unfold getSectionDict
    split <;> first | rfl | (split <;> first | rfl | simp_all)

theorem LeadData.setAttr_setAttr (l : LeadData) (a : String) (v : Value) :
    (l.setAttr a v).setAttr a v = l.setAttr a v := by
  by_cases h : a ∈ (["nome_completo", "email", "telefone", "tipo_interesse", "cpf",
      "data_nascimento", "renda_mensal", "empresa", "cargo", "tem_empresa",
      "precisa_contabilidade"] : List String)
  · fin_cases h <;> rfl
  · have hno : ∀ l' : LeadData, l'.setAttr a v = l' := by
      intro l'
      unfold LeadData.setAttr
      split <;> first | rfl | exact absurd (by decide) h
    rw [hno, hno]

theorem setSectionDict_total (s : String) :
    ((∀ (c : ConversationContext) (d : PyDict),
        getSectionDict (setSectionDict c s d) s = d) ∧
      (∀ c : ConversationContext, setSectionDict c s (getSectionDict c s) = c)) ∨
    (∀ (c : ConversationContext) (d : PyDict), setSectionDict c s d = c) := by
  by_cases h : s ∈ (["initial_confirmation", "business_profile", "proposal_status",
      "contract_data", "document_status", "company_profile", "review_status",
      "process_status"] : List String)
  · left
    fin_cases h <;> exact ⟨fun c d => rfl, fun c => rfl⟩
  · right
    intro c d
    unfold setSectionDict
    split <;> first | rfl | exact absurd (by decide) h

/-- C7 counterexample: merging the same (field, value) extraction twice is
not idempotent.  With lead cpf already set and contract cpf holding False,
the first merge tracks nothing (the contract value is unchanged, then the
sync step overwrites it from the lead side), while the second merge of the
identical payload writes False again and appends "contract_data.cpf" to
fields_collected. -/
theorem C7_counterexample :
    (update_context_with_extracted_data
        { lead_data := { cpf := .str "111.444.777-35" },
          contract_data := [("cpf", .bool false)] }
        [("cpf_contrato", .bool false)]).toOption.map
      ConversationContext.fields_collected = some [] ∧
    ((update_context_with_extracted_data
        { lead_data := { cpf := .str "111.444.777-35" },
          contract_data := [("cpf", .bool false)] }
        [("cpf_contrato", .bool false)]).bind (fun c =>
      update_context_with_extracted_data c
        [("cpf_contrato", .bool false)])).toOption.map
      ConversationContext.fields_collected = some ["contract_data.cpf"] :=
  ⟨rfl, rfl⟩

/-- C7 (amended): the per-field write step itself is idempotent — running
`apply_extracted_field` a second time with the same (field, value) pair
immediately after the first changes nothing, because the coercion is
deterministic, the write guards compare against the freshly stored value,
and collection tracking is append-if-absent.  (The full merge is not
idempotent: the interleaved contract sync can restore an overwritten
contract entry, making the identical write fire — and track — again.) -/
theorem C7_amended (ctx : ConversationContext) (f : String) (v : Value) :
    apply_extracted_field (apply_extracted_field ctx f v) f v =
      apply_extracted_field ctx f v := by
  match hfs : fieldSection? f with
  | none =>
    have h1 : ∀ c : ConversationContext, apply_extracted_field c f v = c := by
      intro c
      unfold apply_extracted_field
      rw [hfs]
    rw [h1, h1]
  | some (sec, attrName) =>
    simp only [apply_extracted_field, hfs]
    by_cases hsec : (sec == "lead_data") = true
    · rw [if_pos hsec, if_pos hsec]
      by_cases hg : ((if (coerce_value attrName v).isNull &&
            !(pyEq v .null || pyEq v (.str "")) then v else coerce_value attrName v).truthy &&
          !pyEq (ctx.lead_data.getAttr attrName)
            (if (coerce_value attrName v).isNull &&
              !(pyEq v .null || pyEq v (.str "")) then v else coerce_value attrName v)) = true
      · rw [if_pos hg]
        set pv := (if (coerce_value attrName v).isNull &&
          !(pyEq v .null || pyEq v (.str "")) then v else coerce_value attrName v) with hpv
        set W := track_field_collection
          { ctx with lead_data := ctx.lead_data.setAttr attrName pv } attrName with hW
        by_cases hg2 : (pv.truthy && !pyEq (W.lead_data.getAttr attrName) pv) = true
        · rw [if_pos hg2]
          have hWl : W.lead_data = ctx.lead_data.setAttr attrName pv := by
            rw [hW, track_field_collection_lead]
          rw [hWl, LeadData.setAttr_setAttr, ← hWl]
          have he : ({ W with lead_data := W.lead_data } : ConversationContext) = W := rfl
          rw [he, hW]
          exact track_track _ _
        · rw [if_neg hg2]
      · rw [if_neg hg, if_neg hg]
    · rw [if_neg hsec, if_neg hsec]
      by_cases hg : (!(pyEq (if (coerce_value attrName v).isNull &&
              !(pyEq v .null || pyEq v (.str "")) then v else coerce_value attrName v) .null ||
            pyEq (if (coerce_value attrName v).isNull &&
              !(pyEq v .null || pyEq v (.str "")) then v else coerce_value attrName v) (.str "")) &&
          !pyEq (dictGet (getSectionDict ctx sec) attrName)
            (if (coerce_value attrName v).isNull &&
              !(pyEq v .null || pyEq v (.str "")) then v else coerce_value attrName v)) = true
      · rw [if_pos hg]
        set pv := (if (coerce_value attrName v).isNull &&
          !(pyEq v .null || pyEq v (.str "")) then v else coerce_value attrName v) with hpv
        set W := track_field_collection
          (setSectionDict ctx sec (dictSet (getSectionDict ctx sec) attrName pv))
          (sec ++ "." ++ attrName) with hW
        by_cases hg2 : (!(pyEq pv .null || pyEq pv (.str "")) &&
            !pyEq (dictGet (getSectionDict W sec) attrName) pv) = true
        · rw [if_pos hg2]
          have hWs : getSectionDict W sec =
              getSectionDict (setSectionDict ctx sec
                (dictSet (getSectionDict ctx sec) attrName pv)) sec := by
            rw [hW, getSectionDict_track]
          rcases setSectionDict_total sec with ⟨hget, hself⟩ | hno
          · have hD : getSectionDict W sec = dictSet (getSectionDict ctx sec) attrName pv := by
              rw [hWs, hget]
            rw [hD, dictSet_set_self, ← hD, hself W, hW]
            exact track_track _ _
          · rw [hno, hW]
            exact track_track _ _
        · rw [if_neg hg2]
      · rw [if_neg hg, if_neg hg]

set_option maxHeartbeats 2000000 in
/-- Witness for C10: merging the single extracted field nome_completo = "Ana"
into an empty context succeeds, and afterwards the lead-side and
contract-side nome_completo agree on truthiness. -/
theorem C10_contract_sync_witness :
    ([(("nome_completo" : String), Value.str "Ana")] ≠ ([] : List (String × Value))) ∧
    ((((update_context_with_extracted_data {} [("nome_completo", Value.str "Ana")]).toOption.getD
        {}).lead_data.getAttr "nome_completo").truthy =
      (dictGet ((update_context_with_extracted_data {}
        [("nome_completo", Value.str "Ana")]).toOption.getD {}).contract_data
        "nome_completo").truthy) :=
  ⟨by decide,
   ((C10_contract_sync {} [("nome_completo", Value.str "Ana")] _
      (by decide) rfl).1 "nome_completo" (by decide)).1⟩

end WaAgent
